import Mathlib

/-!
Verification development for the MCP Email Analyzer repository.

This file gives a shallow embedding, in Lean 4, of the parts of the
repository that the checked claims are about:

* `src/core/models.py` — the data-model records with constructor
  validation and the Gmail query-string builder
  `EmailQuery.build_gmail_query`;
* `src/gmail/mapper.py` — the Gmail-message-to-record mapper
  `GmailMapper`;
* `src/gmail/client.py` — the Gmail repository wrapper `GmailRepository`
  (error wrapping, TTL cache, batch fetch, query builder);
* `src/core/interfaces.py` — the default batch helpers of the abstract
  `EmailRepository`;
* `src/server/mcp_server.py` — the MCP tool-registration layer.

Python conventions used throughout the embedding:

* a Python `Optional[str]` becomes `Option String`; the Python truthiness
  test `if s:` on an optional string is `some s` with `s` nonempty;
* a Python `dict` field that may be absent becomes an `Option` field;
* fallible Python code (code that may raise) becomes `Except`;
* third-party library calls (urlsafe base64 decoding, the Gmail HTTP
  transport, the AI analysis provider) are abstracted as explicit
  function or outcome parameters of the embedded code: the embedding is
  then quantified over every possible behaviour of the library.
-/

namespace MCPEmailAnalyzer

/-! ## src/core/models.py -/

/-- Embeds the dataclass fields of `models.EmailQuery` (src/core/models.py,
lines 76-91), with the same defaults.  Optional text fields are `Option
String`; `has_attachment` and `is_unread` are tri-state `Option Bool`. -/
structure EmailQuery where
  query_string : String := ""
  limit : Int := 50
  offset : Int := 0
  include_spam_trash : Bool := false
  label_ids : List String := []
  after_date : Option String := none
  before_date : Option String := none
  has_attachment : Option Bool := none
  is_unread : Option Bool := none
  from_sender : Option String := none
  to_recipient : Option String := none
  subject_contains : Option String := none

/-- One accumulation step of the Python query builders: mirrors a block of
the form `if value: query_parts.append(prefix + value)` where `value` is an
optional string tested for truthiness (so `None` and the empty string both
skip the clause). -/
def appendStrPart (parts : List String) (pre : String) (o : Option String) :
    List String :=
  match o with
  | some s => if s = "" then parts else parts ++ [pre ++ s]
  | none => parts

/-- One accumulation step of the Python query builders for a tri-state
boolean filter: mirrors `if value is not None: query_parts.append(tstr if
value else fstr)`. -/
def appendBoolPart (parts : List String) (o : Option Bool)
    (tstr fstr : String) : List String :=
  match o with
  | some b => parts ++ [if b then tstr else fstr]
  | none => parts

/-- Embeds `EmailQuery.build_gmail_query` (src/core/models.py, lines
92-123): appends, in source order, the free-text query, the `from:` /
`to:` / `subject:` / `after:` / `before:` clauses, the attachment and
unread clauses, and — unless `include_spam_trash` — the literal
clause string `-in:spam -in:trash`; the parts are joined with single
spaces. -/
def EmailQuery.build_gmail_query (q : EmailQuery) : String :=
  let query_parts : List String := []
  let query_parts :=
    if q.query_string = "" then query_parts else query_parts ++ [q.query_string]
  let query_parts := appendStrPart query_parts "from:" q.from_sender
  let query_parts := appendStrPart query_parts "to:" q.to_recipient
  let query_parts := appendStrPart query_parts "subject:" q.subject_contains
  let query_parts := appendStrPart query_parts "after:" q.after_date
  let query_parts := appendStrPart query_parts "before:" q.before_date
  let query_parts :=
    appendBoolPart query_parts q.has_attachment "has:attachment" "-has:attachment"
  let query_parts :=
    appendBoolPart query_parts q.is_unread "is:unread" "-is:unread"
  let query_parts :=
    if q.include_spam_trash then query_parts else query_parts ++ ["-in:spam -in:trash"]
  String.intercalate " " query_parts

/-- Embeds the dataclass fields of `models.EmailData` (src/core/models.py,
lines 8-31). -/
structure ModelsEmailData where
  id : String
  subject : String
  sender : String
  content : String
  timestamp : String
  labels : List String := []
  recipient : Option String := none
  cc : List String := []
  bcc : List String := []
  thread_id : Option String := none
  message_id : Option String := none
  in_reply_to : Option String := none
  has_attachments : Bool := false
  is_read : Bool := false
  is_starred : Bool := false
  is_important : Bool := false
  snippet : Option String := none
  raw_headers : List (String × String) := []

/-- Embeds `EmailData.__post_init__` (src/core/models.py, lines 32-37):
construction of a `models.EmailData` raises `ValueError` when the id or
the sender is empty (Python truthiness on `str`), and succeeds otherwise.
The raised `ValueError` message is the `Except.error` payload. -/
def ModelsEmailData.validate (d : ModelsEmailData) :
    Except String ModelsEmailData :=
  if d.id = "" then .error "Email ID cannot be empty"
  else if d.sender = "" then .error "Email sender cannot be empty"
  else .ok d

/-- Embeds the dataclass fields of `models.AnalysisResult`
(src/core/models.py, lines 40-59).  The Python float `confidence` is
embedded as a rational number; the comparisons `0.0 <= c <= 1.0` are exact
at the boundary values, so no rounding behaviour is involved.  The
`analysis_timestamp` default (wall-clock time) is kept abstract as a plain
field. -/
structure AnalysisResult where
  email_id : String
  sentiment : String
  priority : String
  category : String
  confidence : ℚ
  summary : String
  keywords : List String := []
  language : Option String := none
  reading_time_minutes : Option Int := none
  complexity_score : Option ℚ := none
  action_required : Bool := false
  deadline_detected : Option String := none
  analysis_timestamp : String := ""

/-- Embeds `AnalysisResult.__post_init__` (src/core/models.py, lines
61-73): validation of the email id, the sentiment and priority enums, and
the confidence bounds, in source order. -/
def AnalysisResult.validate (r : AnalysisResult) :
    Except String AnalysisResult :=
  if r.email_id = "" then .error "Email ID cannot be empty"
  else if ¬ (r.sentiment = "positive" ∨ r.sentiment = "negative" ∨
             r.sentiment = "neutral") then
    .error "Sentiment must be positive, negative, or neutral"
  else if ¬ (r.priority = "high" ∨ r.priority = "medium" ∨
             r.priority = "low") then
    .error "Priority must be high, medium, or low"
  else if ¬ (0 ≤ r.confidence ∧ r.confidence ≤ 1) then
    .error "Confidence must be between 0.0 and 1.0"
  else .ok r

/-- Embeds the dataclass fields of `models.EmailAction`
(src/core/models.py, lines 126-131). -/
structure EmailAction where
  action_type : String
  email_ids : List String
  parameters : List (String × String) := []

/-- Embeds the `valid_actions` set of `EmailAction.__post_init__`
(src/core/models.py, lines 135-139). -/
def valid_actions : List String :=
  ["mark_read", "mark_unread", "star", "unstar",
   "archive", "delete", "add_label", "remove_label",
   "move_to_trash", "remove_from_trash"]

/-- Embeds `EmailAction.__post_init__` (src/core/models.py, lines
133-145): the action type must be recognized and the email-id list
nonempty. -/
def EmailAction.validate (a : EmailAction) : Except String EmailAction :=
  if ¬ a.action_type ∈ valid_actions then
    .error ("Invalid action type: " ++ a.action_type)
  else if a.email_ids = [] then .error "Email IDs list cannot be empty"
  else .ok a

/-- Success test for an embedded fallible constructor. -/
def exceptOk {ε α : Type} : Except ε α → Bool
  | .ok _ => true
  | .error _ => false

/-! ## Claim-side definitions for C1

The claim describes the built query as the space-join of an ordered list
of clauses, one per set field.  `clauseOfStr` and `clauseOfBool` give the
per-field optional clause, and `claimClauses` lists them in the order the
claim fixes. -/

/-- Clause contributed by an optional text field: present exactly when the
field is set to a nonempty string. -/
def clauseOfStr (o : Option String) (pre : String) : Option String :=
  match o with
  | some s => if s = "" then none else some (pre ++ s)
  | none => none

/-- Clause contributed by a tri-state boolean field: present exactly when
the field is set. -/
def clauseOfBool (o : Option Bool) (tstr fstr : String) : Option String :=
  o.map (fun b => if b then tstr else fstr)

/-- The ordered clause list described by claim C1: free-text query, from:,
to:, subject:, after:, before:, attachment flag, unread flag, and the
spam/trash exclusion exactly when `include_spam_trash` is false. -/
def claimClauses (q : EmailQuery) : List String :=
  ([if q.query_string = "" then none else some q.query_string,
    clauseOfStr q.from_sender "from:",
    clauseOfStr q.to_recipient "to:",
    clauseOfStr q.subject_contains "subject:",
    clauseOfStr q.after_date "after:",
    clauseOfStr q.before_date "before:",
    clauseOfBool q.has_attachment "has:attachment" "-has:attachment",
    clauseOfBool q.is_unread "is:unread" "-is:unread",
    if q.include_spam_trash then none else some "-in:spam -in:trash"] :
    List (Option String)).filterMap id

/-! ## src/gmail/mapper.py

A Gmail API message is a JSON object whose `payload` field is a MIME part
(type `MessagePart` in the Gmail API); a part optionally carries a
`parts` array of nested parts.  `Part` embeds such a part tree: an
`Option (List Part)` distinguishes an absent `parts` key (`none`) from a
present, possibly empty, array (`some l`), because the Python code tests
key presence (`if 'parts' in part`).  Dict keys that the mapper reads
with `.get` default as in the source (`mimeType` to the empty string,
`size` to 0). -/

/-- A Gmail MIME part: mime type, `filename`, `body.data`, `body.size`,
`body.attachmentId`, `headers`, and the optional nested `parts` array. -/
inductive Part where
  | mk (mimeType : String) (filename : Option String)
       (bodyData : Option String) (bodySize : Nat)
       (attachmentId : Option String)
       (headers : List (String × String))
       (parts : Option (List Part))

/-- Mime type of a part (dict key `mimeType`, absent read as empty). -/
def Part.mimeType : Part → String
  | .mk m _ _ _ _ _ _ => m

/-- Filename of a part (dict key `filename`). -/
def Part.filename : Part → Option String
  | .mk _ f _ _ _ _ _ => f

/-- Base64url-encoded body data of a part (dict path `body.data`). -/
def Part.bodyData : Part → Option String
  | .mk _ _ d _ _ _ _ => d

/-- Body size of a part (dict path `body.size`, absent read as 0). -/
def Part.bodySize : Part → Nat
  | .mk _ _ _ s _ _ _ => s

/-- Attachment id of a part (dict path `body.attachmentId`). -/
def Part.attachmentId : Part → Option String
  | .mk _ _ _ _ a _ _ => a

/-- Header list of a part (dict key `headers`, a list of name/value
pairs). -/
def Part.headers : Part → List (String × String)
  | .mk _ _ _ _ _ h _ => h

/-- Nested parts of a part: `none` when the `parts` key is absent. -/
def Part.parts : Part → Option (List Part)
  | .mk _ _ _ _ _ _ p => p

/-- The empty part: the value of `message.get('payload', {})` when the
message has no payload. -/
def Part.empty : Part := .mk "" none none 0 none [] none

/-- Embeds a Gmail API message as consumed by the mapper: `id` is
`Option` because `message['id']` raises `KeyError` when absent, the other
fields are read with `.get` and its defaults. -/
structure GmailMessage where
  id : Option String := none
  threadId : Option String := none
  labelIds : List String := []
  snippet : String := ""
  sizeEstimate : Nat := 0
  historyId : Option String := none
  internalDate : Option String := none
  payload : Part := Part.empty

/-- Embeds `core.interfaces.EmailMetadata` (src/core/interfaces.py, lines
173-190) as populated by the mapper.  `internal_date` keeps the raw
millisecond string: the conversion to a wall-clock datetime
(`_parse_internal_date`) is not modelled. -/
structure EmailMetadata where
  thread_id : Option String := none
  label_ids : List String := []
  snippet : String := ""
  size_estimate : Nat := 0
  history_id : Option String := none
  internal_date : Option String := none
deriving DecidableEq

/-- An attachment record as built by `_extract_attachments`
(src/gmail/mapper.py, lines 128-137): filename, mime type, size and
attachment id of the carrying part. -/
structure Attachment where
  filename : String
  mime_type : String
  size : Nat
  attachment_id : Option String
deriving DecidableEq

/-- Embeds `core.interfaces.EmailData` (src/core/interfaces.py, lines
193-211), the flat record the mapper produces.  `date` keeps the raw
`Date` header string: RFC 2822 date parsing (`_parse_date`, a call into
the host `email` library) is not modelled. -/
structure EmailData where
  id : String
  thread_id : Option String := none
  subject : String := ""
  sender : String := ""
  recipients : List String := []
  cc : List String := []
  bcc : List String := []
  date : Option String := none
  body : String := ""
  attachments : List Attachment := []
  labels : List String := []
  is_read : Bool := false
  is_starred : Bool := false
  is_important : Bool := false
  metadata : EmailMetadata := {}
deriving DecidableEq

/-- Embeds `GmailMapper._extract_headers` (src/gmail/mapper.py, lines
71-80) composed with a dict lookup: the Python code folds the header list
into a dict (later occurrences of a name overwrite earlier ones), so a
lookup returns the value of the last occurrence. -/
def headerGet (hs : List (String × String)) (k : String) : Option String :=
  (hs.reverse.find? (fun h => h.1 == k)).map (fun h => h.2)

/-- Embeds `_parse_recipients` / `_parse_cc` / `_parse_bcc`
(src/gmail/mapper.py, lines 150-175): split the header value on commas,
strip whitespace, drop empty entries; an absent header gives the empty
list. -/
def parse_address_list (o : Option String) : List String :=
  match o with
  | some s => ((s.splitOn ",").map String.trim).filter (fun a => a ≠ "")
  | none => []

mutual
/-- Python's `str.strip()`: drop leading and trailing whitespace.
Implemented over the character list (rather than with `String.trim`) so
that it evaluates inside the kernel on concrete inputs. -/
def stripStr (s : String) : String :=
  String.mk ((s.data.dropWhile Char.isWhitespace).reverse.dropWhile
    Char.isWhitespace).reverse

/-- Embeds `GmailMapper._extract_part_body` (src/gmail/mapper.py, lines
97-120) together with its per-list loop.  The base64url decoder
(`base64.urlsafe_b64decode(...).decode('utf-8')`) is the abstract
parameter `d`; `d s = none` is a decode failure, which the source logs
and turns into the empty string. -/
def extract_part_body (d : String → Option String) : Part → String
  | .mk mime _ dat _ _ _ ps =>
    match ps with
    | some l => extract_parts_body d l
    | none =>
      if mime = "text/plain" ∨ mime = "text/html" then
        match dat with
        | some s =>
          if s = "" then ""
          else
            match d s with
            | some decoded => decoded ++ "\n"
            | none => ""
        | none => ""
      else ""

/-- Loop body of `_extract_body` and of the nested-parts branch of
`_extract_part_body`: concatenate the extractions of a part list in
order. -/
def extract_parts_body (d : String → Option String) : List Part → String
  | [] => ""
  | p :: ps => extract_part_body d p ++ extract_parts_body d ps
end

/-- Embeds `GmailMapper._extract_body` (src/gmail/mapper.py, lines
82-95): concatenate over the payload's immediate parts when the `parts`
key is present, otherwise extract from the payload itself; strip the
result. -/
def extract_body (d : String → Option String) (msg : GmailMessage) :
    String :=
  stripStr
    (match msg.payload.parts with
     | some l => extract_parts_body d l
     | none => extract_part_body d msg.payload)

mutual
/-- Embeds the `process_part` closure of `GmailMapper._extract_attachments`
(src/gmail/mapper.py, lines 128-142): record the part itself when its
filename is truthy, then recurse into its nested parts. -/
def process_part : Part → List Attachment
  | .mk mime fn _ sz aid _ ps =>
    (match fn with
     | some s => if s = "" then [] else [⟨s, mime, sz, aid⟩]
     | none => []) ++
    (match ps with
     | some l => process_parts l
     | none => [])

/-- Loop over a part list for `_extract_attachments`. -/
def process_parts : List Part → List Attachment
  | [] => []
  | p :: ps => process_part p ++ process_parts ps
end

/-- Embeds `GmailMapper._extract_attachments` (src/gmail/mapper.py, lines
122-148): process the payload's immediate parts when the `parts` key is
present; a payload without a `parts` key yields no attachments (the
payload part itself is never examined). -/
def extract_attachments (msg : GmailMessage) : List Attachment :=
  match msg.payload.parts with
  | some l => process_parts l
  | none => []

/-- Embeds `GmailMapper.map_message_to_email_data` (src/gmail/mapper.py,
lines 20-69).  `message['id']` raises `KeyError` when the id is absent;
that exception is re-raised by the mapper, so the embedding returns
`Except.error` there.  All other field reads use `.get` defaults and
cannot fail. -/
def map_message_to_email_data (d : String → Option String)
    (msg : GmailMessage) : Except String EmailData :=
  match msg.id with
  | none => .error "KeyError: id"
  | some mid =>
    let hs := msg.payload.headers
    .ok
      { id := mid
        thread_id := msg.threadId
        subject := (headerGet hs "Subject").getD "No Subject"
        sender := (headerGet hs "From").getD ""
        recipients := parse_address_list (headerGet hs "To")
        cc := parse_address_list (headerGet hs "Cc")
        bcc := parse_address_list (headerGet hs "Bcc")
        date := headerGet hs "Date"
        body := extract_body d msg
        attachments := extract_attachments msg
        labels := msg.labelIds
        is_read := ! msg.labelIds.contains "UNREAD"
        is_starred := msg.labelIds.contains "STARRED"
        is_important := msg.labelIds.contains "IMPORTANT"
        metadata :=
          { thread_id := msg.threadId
            label_ids := msg.labelIds
            snippet := msg.snippet
            size_estimate := msg.sizeEstimate
            history_id := msg.historyId
            internal_date := msg.internalDate } }

/-- Embeds `GmailMapper.map_batch_messages` (src/gmail/mapper.py, lines
209-235): map each message, appending successes and skipping (logging
and continuing on) any message whose mapping raises. -/
def map_batch_messages (d : String → Option String) :
    List GmailMessage → List EmailData
  | [] => []
  | m :: ms =>
    match map_message_to_email_data d m with
    | .ok ed => ed :: map_batch_messages d ms
    | .error _ => map_batch_messages d ms

/-! ## Claim-side definitions for C2

Claim C2 describes the mapper output in terms of the tree of MIME parts
of the message: `partAll` lists every part of the tree rooted at the
payload in document (preorder) order, and `partLeaves` lists the leaf
parts (parts without a `parts` key) in document order. -/

mutual
/-- All parts of a part tree, in document (preorder) order, the root
included. -/
def partAll : Part → List Part
  | p@(.mk _ _ _ _ _ _ ps) =>
    p :: (match ps with
          | some l => partAllList l
          | none => [])

/-- All parts of the trees of a part list, in document order. -/
def partAllList : List Part → List Part
  | [] => []
  | p :: ps => partAll p ++ partAllList ps
end

mutual
/-- The leaf parts (no `parts` key) of a part tree, in document order. -/
def partLeaves : Part → List Part
  | p@(.mk _ _ _ _ _ _ ps) =>
    match ps with
    | some l => partLeavesList l
    | none => [p]

/-- The leaf parts of the trees of a part list, in document order. -/
def partLeavesList : List Part → List Part
  | [] => []
  | p :: ps => partLeaves p ++ partLeavesList ps
end

/-- Claim-side body contribution of one leaf part: its decoded data
followed by a newline when the part has text mime type and carries data
(decode failures contribute nothing, as the source logs and skips
them). -/
def leafBodyClause (d : String → Option String) (p : Part) :
    Option String :=
  if p.mimeType = "text/plain" ∨ p.mimeType = "text/html" then
    match p.bodyData with
    | some s =>
      if s = "" then none
      else some (match d s with
                 | some decoded => decoded ++ "\n"
                 | none => "")
    | none => none
  else none

/-- Concatenation of a list of strings, in order. -/
def joinAll : List String → String
  | [] => ""
  | s :: rest => s ++ joinAll rest

/-- Claim-side body of a message: the concatenation, in document order
over the leaf parts of the payload tree, of each text part's decoded data
followed by a newline, stripped. -/
def bodySpec (d : String → Option String) (msg : GmailMessage) : String :=
  stripStr (joinAll ((partLeaves msg.payload).filterMap (leafBodyClause d)))

/-- Claim-side attachment contribution of one part: present exactly when
the part carries a nonempty filename. -/
def attachClause (p : Part) : Option Attachment :=
  match p.filename with
  | some s => if s = "" then none
              else some ⟨s, p.mimeType, p.bodySize, p.attachmentId⟩
  | none => none

/-- Claim-side attachments of a message as claim C2 states them: the
parts of the payload tree (root included) carrying a nonempty filename,
in document order. -/
def attachSpec (msg : GmailMessage) : List Attachment :=
  (partAll msg.payload).filterMap attachClause

/-- Amended claim-side attachments: the parts strictly below the
top-level payload (the members of `parts` arrays, the root part itself
excluded) carrying a nonempty filename, in document order. -/
def attachSpecNested (msg : GmailMessage) : List Attachment :=
  (match msg.payload.parts with
   | some l => partAllList l
   | none => []).filterMap attachClause

/-- Claim C2 as stated, for a fixed decoder: every successfully mapped
message has the claimed body, the claimed attachment list over all parts
of the payload tree, and the claimed label-derived flags. -/
def mapperClaim (d : String → Option String) : Prop :=
  ∀ (msg : GmailMessage) (ed : EmailData),
    map_message_to_email_data d msg = .ok ed →
    ed.body = bodySpec d msg ∧
    ed.attachments = attachSpec msg ∧
    ed.is_read = ! msg.labelIds.contains "UNREAD" ∧
    ed.is_starred = msg.labelIds.contains "STARRED" ∧
    ed.is_important = msg.labelIds.contains "IMPORTANT"

/-- The identity decoder, used to instantiate the abstract base64url
decoder at concrete inputs. -/
def d0 : String → Option String := fun s => some s

/-- Concrete counterexample message for C2: its top-level payload is
itself an attachment part (a nonempty `filename`, no nested parts). -/
def mc2 : GmailMessage :=
  { id := some "m1",
    labelIds := ["UNREAD"],
    payload := .mk "application/pdf" (some "report.pdf") none 3
      (some "att-1") [] none }

/-- The record `map_message_to_email_data` produces on `mc2`. -/
def ed0 : EmailData :=
  { id := "m1",
    subject := "No Subject",
    sender := "",
    labels := ["UNREAD"],
    is_read := false,
    metadata := { label_ids := ["UNREAD"] } }

/-! ## src/gmail/client.py

The Gmail HTTP transport is abstracted as an `ApiOutcome`: the result of
one underlying `service.users().messages()...execute()` call, which
either returns a value, raises an `HttpError` with a status code, or
raises some other exception.  The repository's TTL cache (a
`cachetools.TTLCache(maxsize=1000, ttl=settings.cache_ttl)`) is embedded
as an association list of key/value/insertion-time entries; the
`cachetools` semantics modelled are: an entry is visible while
`now < inserted + ttl`; inserting refreshes the key's entry and
timestamp, purges expired entries, and evicts oldest-first down to the
1000-entry bound (the exact LRU eviction order of `cachetools` is not
needed by any claim, only that eviction keeps the bound).  Logical time
`now` is an explicit parameter. -/

/-- A cache entry: key, value, and insertion time (seconds). -/
abbrev CacheEntry := String × EmailData × Nat

/-- The email cache of `GmailRepository` (src/gmail/client.py, line 32). -/
abbrev Cache := List CacheEntry

/-- Cache lookup: the entry for the key, provided it has not expired. -/
def cacheLookup (now ttl : Nat) (k : String) : Cache → Option EmailData
  | [] => none
  | (k', v, t) :: rest =>
    if k' = k then (if now < t + ttl then some v else none)
    else cacheLookup now ttl k rest

/-- Membership test (`email_id in self._cache`): expired entries count as
absent. -/
def cacheContains (now ttl : Nat) (k : String) (c : Cache) : Bool :=
  (cacheLookup now ttl k c).isSome

/-- Purge expired entries (the `expire` step of a `TTLCache` insert). -/
def cacheExpire (now ttl : Nat) : Cache → Cache :=
  List.filter (fun e => decide (now < e.2.2 + ttl))

/-- Remove every entry with the given key. -/
def cacheRemoveKey (k : String) : Cache → Cache
  | [] => []
  | (k', v, t) :: rest =>
    if k' = k then cacheRemoveKey k rest
    else (k', v, t) :: cacheRemoveKey k rest

/-- Cache insert (`self._cache[key] = value`): purge expired entries,
replace the key's entry, evict down to the 1000-entry bound, append the
fresh entry. -/
def cacheInsert (now ttl : Nat) (k : String) (v : EmailData) (c : Cache) :
    Cache :=
  let c1 := cacheRemoveKey k (cacheExpire now ttl c)
  let c2 := if 1000 ≤ c1.length then c1.drop (c1.length + 1 - 1000) else c1
  c2 ++ [(k, v, now)]

/-- In-place mutation of a cached record (`self._cache[k].is_read = b`):
the record stored under the key is replaced, keeping its insertion
time. -/
def cacheUpdate (k : String) (f : EmailData → EmailData) : Cache → Cache
  | [] => []
  | (k', v, t) :: rest =>
    if k' = k then (k', f v, t) :: cacheUpdate k f rest
    else (k', v, t) :: cacheUpdate k f rest

/-- Cache removal (`self._cache.pop(key, None)`): a live entry is
removed; an expired or absent key leaves the cache as is (a `TTLCache`
pop of an expired key raises `KeyError` internally and removes
nothing). -/
def cachePop (now ttl : Nat) (k : String) (c : Cache) : Cache :=
  if cacheContains now ttl k c then cacheRemoveKey k c else c

/-- The outcome of one underlying Gmail SDK call: a result, an
`HttpError` with its status, or an unexpected exception. -/
inductive ApiOutcome (α : Type) where
  | ok (a : α)
  | httpError (status : Nat)
  | exn (msg : String)

/-- The wrapper's own exception taxonomy as raised by `GmailRepository`
(src/server/exceptions.py): `EmailNotFoundError`, `RateLimitError` and
`EmailServiceError`.  Exception message strings are not modelled. -/
inductive ServiceError where
  | emailNotFound
  | rateLimit
  | serviceError
deriving DecidableEq

/-- The `except HttpError` mapping shared by the repository methods
(src/gmail/client.py, e.g. lines 149-158): status 404 raises
`EmailNotFoundError`, 429 raises `RateLimitError`, anything else raises
`EmailServiceError`. -/
def wrap_http_error (status : Nat) : ServiceError :=
  if status = 404 then .emailNotFound
  else if status = 429 then .rateLimit
  else .serviceError

/-- Embeds `GmailRepository.get_email_by_id` (src/gmail/client.py, lines
112-161): return the cached record on a cache hit; otherwise issue the
API call, map the message, cache and return it; wrap an `HttpError` per
status and any other exception (including a mapper failure) as
`EmailServiceError`. -/
def get_email_by_id (d : String → Option String) (now ttl : Nat)
    (c : Cache) (email_id : String) (api : ApiOutcome GmailMessage) :
    Except ServiceError EmailData × Cache :=
  match cacheLookup now ttl email_id c with
  | some v => (.ok v, c)
  | none =>
    match api with
    | .ok message =>
      match map_message_to_email_data d message with
      | .ok email_data =>
        (.ok email_data, cacheInsert now ttl email_id email_data c)
      | .error _ => (.error .serviceError, c)
    | .httpError status => (.error (wrap_http_error status), c)
    | .exn _ => (.error .serviceError, c)

/-- Embeds `GmailRepository.mark_as_read` (src/gmail/client.py, lines
216-253): on API success, set `is_read` of the cached record (if the id
is live in the cache) and return `True`; wrap failures. -/
def mark_as_read (now ttl : Nat) (c : Cache) (email_id : String)
    (api : ApiOutcome Unit) : Except ServiceError Bool × Cache :=
  match api with
  | .ok _ =>
    let c' := if cacheContains now ttl email_id c then
                cacheUpdate email_id (fun v => { v with is_read := true }) c
              else c
    (.ok true, c')
  | .httpError status => (.error (wrap_http_error status), c)
  | .exn _ => (.error .serviceError, c)

/-- Embeds `GmailRepository.mark_as_unread` (src/gmail/client.py, lines
260-297). -/
def mark_as_unread (now ttl : Nat) (c : Cache) (email_id : String)
    (api : ApiOutcome Unit) : Except ServiceError Bool × Cache :=
  match api with
  | .ok _ =>
    let c' := if cacheContains now ttl email_id c then
                cacheUpdate email_id (fun v => { v with is_read := false }) c
              else c
    (.ok true, c')
  | .httpError status => (.error (wrap_http_error status), c)
  | .exn _ => (.error .serviceError, c)

/-- Embeds `GmailRepository.delete_email` (src/gmail/client.py, lines
304-339): on API success, drop the id from the cache and return
`True`; wrap failures. -/
def delete_email (now ttl : Nat) (c : Cache) (email_id : String)
    (api : ApiOutcome Unit) : Except ServiceError Bool × Cache :=
  match api with
  | .ok _ => (.ok true, cachePop now ttl email_id c)
  | .httpError status => (.error (wrap_http_error status), c)
  | .exn _ => (.error .serviceError, c)

/-- Embeds the `fetch_single_message` closure of
`GmailRepository._fetch_messages_batch` (src/gmail/client.py, lines
351-377): cached records are returned as is; otherwise the message is
fetched, mapped and cached; every failure yields `none`. -/
def fetch_single_message (d : String → Option String) (now ttl : Nat)
    (c : Cache) (message_id : String) (api : ApiOutcome GmailMessage) :
    Option EmailData × Cache :=
  match cacheLookup now ttl message_id c with
  | some v => (some v, c)
  | none =>
    match api with
    | .ok message =>
      match map_message_to_email_data d message with
      | .ok email_data =>
        (some email_data, cacheInsert now ttl message_id email_data c)
      | .error _ => (none, c)
    | .httpError _ => (none, c)
    | .exn _ => (none, c)

/-- Embeds `GmailRepository._fetch_messages_batch` (src/gmail/client.py,
lines 341-395): fetch each listed message (each paired with its API
outcome), keep the non-`None` results in input order (`asyncio.gather`
preserves input order; the semaphore bounds concurrency but does not
reorder).  The shared cache is threaded sequentially. -/
def fetch_messages_batch (d : String → Option String) (now ttl : Nat) :
    Cache → List (String × ApiOutcome GmailMessage) →
    List EmailData × Cache
  | c, [] => ([], c)
  | c, (mid, api) :: rest =>
    let r := fetch_single_message d now ttl c mid api
    let rs := fetch_messages_batch d now ttl r.2 rest
    ((match r.1 with
      | some email_data => email_data :: rs.1
      | none => rs.1), rs.2)

/-- Embeds `GmailRepository._build_query` (src/gmail/client.py, lines
397-448).  A Python `datetime` bound is embedded as a year/month/day
triple, formatted by `strftime("%Y/%m/%d")`; a `datetime` object is
always truthy, so a set bound always contributes its clause. -/
structure PyDatetime where
  year : Nat
  month : Nat
  day : Nat
deriving DecidableEq

/-- Zero-pad a number to two digits (`strftime` field `%m` / `%d`). -/
def pad2 (n : Nat) : String :=
  if n < 10 then "0" ++ toString n else toString n

/-- Zero-pad a number to four digits (`strftime` field `%Y`). -/
def pad4 (n : Nat) : String :=
  if n < 10 then "000" ++ toString n
  else if n < 100 then "00" ++ toString n
  else if n < 1000 then "0" ++ toString n
  else toString n

/-- Format a datetime as `strftime("%Y/%m/%d")` does. -/
def strftime_ymd (t : PyDatetime) : String :=
  pad4 t.year ++ "/" ++ pad2 t.month ++ "/" ++ pad2 t.day

/-- Embeds the dataclass fields of `core.interfaces.SearchFilters`
(src/core/interfaces.py, lines 255-279) that `_build_query` reads, plus
the remaining filter fields with their defaults. -/
structure SearchFilters where
  sender : Option String := none
  recipient : Option String := none
  subject : Option String := none
  body_contains : Option String := none
  has_attachment : Option Bool := none
  is_unread : Option Bool := none
  is_starred : Option Bool := none
  is_important : Option Bool := none
  date_after : Option PyDatetime := none
  date_before : Option PyDatetime := none
  labels : List String := []
  exclude_labels : List String := []

/-- One accumulation step for an optional date bound: mirrors `if
value: query_parts.append(prefix + value.strftime("%Y/%m/%d"))` (a
`datetime` is always truthy). -/
def appendDatePart (parts : List String) (pre : String)
    (o : Option PyDatetime) : List String :=
  match o with
  | some t => parts ++ [pre ++ strftime_ymd t]
  | none => parts

/-- Embeds `GmailRepository._build_query` (src/gmail/client.py, lines
397-448): appends, in source order, `from:` / `to:` / `subject:`
clauses, the free-text body clause, the attachment clause, the unread
clause (`is:unread` when set true, `is:read` when set false), the
`after:` / `before:` date clauses, and one `label:` clause per label;
joined with single spaces.  No spam/trash exclusion is appended. -/
def build_query (f : SearchFilters) : String :=
  let query_parts : List String := []
  let query_parts := appendStrPart query_parts "from:" f.sender
  let query_parts := appendStrPart query_parts "to:" f.recipient
  let query_parts := appendStrPart query_parts "subject:" f.subject
  let query_parts := appendStrPart query_parts "" f.body_contains
  let query_parts :=
    appendBoolPart query_parts f.has_attachment "has:attachment" "-has:attachment"
  let query_parts :=
    appendBoolPart query_parts f.is_unread "is:unread" "is:read"
  let query_parts := appendDatePart query_parts "after:" f.date_after
  let query_parts := appendDatePart query_parts "before:" f.date_before
  let query_parts := query_parts ++ f.labels.map (fun l => "label:" ++ l)
  String.intercalate " " query_parts

/-! ## src/core/interfaces.py: default batch helpers -/

/-- Embeds `EmailRepository.mark_multiple_as_read`
(src/core/interfaces.py, lines 426-443): call `mark_as_read` per id in
order, collect the ids whose call returned `True`, skip ids whose call
raised.  `api` gives the underlying outcome of each id's call. -/
def mark_multiple_as_read (now ttl : Nat) (api : String → ApiOutcome Unit) :
    Cache → List String → List String × Cache
  | c, [] => ([], c)
  | c, email_id :: rest =>
    let r := mark_as_read now ttl c email_id (api email_id)
    let rs := mark_multiple_as_read now ttl api r.2 rest
    ((match r.1 with
      | .ok true => email_id :: rs.1
      | _ => rs.1), rs.2)

/-- Embeds `EmailRepository.mark_multiple_as_unread`
(src/core/interfaces.py, lines 445-462). -/
def mark_multiple_as_unread (now ttl : Nat)
    (api : String → ApiOutcome Unit) :
    Cache → List String → List String × Cache
  | c, [] => ([], c)
  | c, email_id :: rest =>
    let r := mark_as_unread now ttl c email_id (api email_id)
    let rs := mark_multiple_as_unread now ttl api r.2 rest
    ((match r.1 with
      | .ok true => email_id :: rs.1
      | _ => rs.1), rs.2)

/-- Embeds `EmailRepository.delete_multiple_emails`
(src/core/interfaces.py, lines 464-481). -/
def delete_multiple_emails (now ttl : Nat)
    (api : String → ApiOutcome Unit) :
    Cache → List String → List String × Cache
  | c, [] => ([], c)
  | c, email_id :: rest =>
    let r := delete_email now ttl c email_id (api email_id)
    let rs := delete_multiple_emails now ttl api r.2 rest
    ((match r.1 with
      | .ok true => email_id :: rs.1
      | _ => rs.1), rs.2)

/-! ## Repository operation sequences (for the cache invariants) -/

/-- One cache-touching repository operation, with its logical time and
the outcome of its underlying API call. -/
inductive RepoOp where
  | getById (now : Nat) (email_id : String) (api : ApiOutcome GmailMessage)
  | fetchBatch (now : Nat) (msgs : List (String × ApiOutcome GmailMessage))
  | markRead (now : Nat) (email_id : String) (api : ApiOutcome Unit)
  | markUnread (now : Nat) (email_id : String) (api : ApiOutcome Unit)
  | deleteOp (now : Nat) (email_id : String) (api : ApiOutcome Unit)

/-- Cache effect of one repository operation. -/
def repoStep (d : String → Option String) (ttl : Nat) (c : Cache) :
    RepoOp → Cache
  | .getById now email_id api => (get_email_by_id d now ttl c email_id api).2
  | .fetchBatch now msgs => (fetch_messages_batch d now ttl c msgs).2
  | .markRead now email_id api => (mark_as_read now ttl c email_id api).2
  | .markUnread now email_id api => (mark_as_unread now ttl c email_id api).2
  | .deleteOp now email_id api => (delete_email now ttl c email_id api).2

/-- The cache after a sequence of repository operations, starting from
the empty cache a fresh `GmailRepository` holds. -/
def runRepoOps (d : String → Option String) (ttl : Nat)
    (ops : List RepoOp) : Cache :=
  ops.foldl (repoStep d ttl) []

/-! ## Claim-side definitions for C8 -/

/-- One `Option` outcome per batch element, with the same sequential
cache threading as `fetch_messages_batch`: the claim-side view in which
every input element appears, successes as `some`. -/
def fetch_outcomes (d : String → Option String) (now ttl : Nat) :
    Cache → List (String × ApiOutcome GmailMessage) →
    List (Option EmailData)
  | _, [] => []
  | c, (mid, api) :: rest =>
    let r := fetch_single_message d now ttl c mid api
    r.1 :: fetch_outcomes d now ttl r.2 rest

/-! ## src/server/mcp_server.py

The tool-registration layer (`EmailAnalyzerServer._register_tools`)
declares four MCP tools and forwards their arguments to the Gmail
repository and to the analysis service.  The analysis service
(`src/analysis/service.py`, imported as `EmailAnalyzerService`) is not
part of the repository, and the handlers call repository methods
(`get_email`, `archive_email`, `add_labels`, keyword-argument
`search_emails`) through the abstract repository interface; both are
therefore embedded as an abstract environment `ServerEnv` of callable
operations, and each handler is embedded together with the trace of the
environment calls it performs. -/

/-- Modelled from the spec: the analysis service (`src/analysis/service.py`,
absent from the repository) produces an "Analysis result: a fixed-shape
record (sentiment, priority, category, confidence, summary)". -/
structure ServerAnalysisResult where
  sentiment : String
  priority : String
  category : String
  confidence : ℚ
  summary : String

/-- Modelled from the spec: the email record shape the `email_search`
handler reads off each search result (`email_id`, `subject`, `sender`,
`received_at`, `is_read`, `has_attachments`). -/
structure SearchResultEmail where
  email_id : String
  subject : String
  sender : String
  received_at : String
  is_read : Bool
  has_attachments : Bool

/-- The `filters` argument object of the `email_search` tool
(src/server/mcp_server.py, lines 184 and 192-200). -/
structure SearchFiltersArg where
  sender : Option String := none
  subject_contains : Option String := none
  date_from : Option String := none
  date_to : Option String := none
  has_attachments : Option Bool := none
  is_unread : Option Bool := none

/-- MCP error codes used by the handlers. -/
inductive McpErrorCode where
  | invalidParams
  | internalError
deriving DecidableEq

/-- An `McpError`: the only exception type the tool handlers surface. -/
structure McpErr where
  code : McpErrorCode
  message : String
deriving DecidableEq

/-- One call a tool handler forwards to the Gmail repository or to the
analysis service. -/
inductive ServerCall where
  | gmailGetEmail (email_id : String)
  | gmailSearch (query : String)
  | gmailMarkAsRead (email_id : String)
  | gmailArchive (email_id : String)
  | gmailDelete (email_id : String)
  | gmailAddLabels (email_id : String) (label_ids : List String)
  | analyzerAnalyze (email_id : String) (analysis_types : List String)
deriving DecidableEq

/-- The abstract environment a handler runs against: one function per
repository / analyzer operation the handlers invoke, each returning
either a value or the message of a raised exception. -/
structure ServerEnv where
  getEmail : String → Except String (Option EmailData)
  analyzeEmail : EmailData → List String → Except String ServerAnalysisResult
  analyzeSearchResult :
    SearchResultEmail → List String → Except String ServerAnalysisResult
  searchEmails :
    String → SearchFiltersArg → Int → Except String (List SearchResultEmail)
  markAsRead : String → Except String Bool
  archiveEmail : String → Except String Bool
  deleteEmail : String → Except String Bool
  addLabels : String → List String → Except String Bool

/-- The declared shape of one registered MCP tool: name, description and
required arguments of its input schema. -/
structure ToolDecl where
  name : String
  description : String
  required : List String

/-- Embeds the four `self.server.register_tool(Tool(...))` calls of
`EmailAnalyzerServer._register_tools` (src/server/mcp_server.py, lines
252-378), in registration order. -/
def registered_tools : List ToolDecl :=
  [⟨"email_analyze",
    "Analyze an individual email with specific analysis types",
    ["email_id"]⟩,
   ⟨"email_classify", "Classify multiple emails in batch", ["email_ids"]⟩,
   ⟨"email_action", "Execute actions on emails (read, archive, delete, label)",
    ["email_ids", "action"]⟩,
   ⟨"email_search", "Search emails with specific filters", []⟩]

/-- The JSON object the `email_analyze` handler returns
(src/server/mcp_server.py, lines 60-74): each analysis field is present
exactly when its type was requested. -/
structure AnalyzeOutput where
  email_id : String
  subject : String
  sentiment : Option String
  priority : Option String
  category : Option String
  summary : Option String
  confidence : ℚ
deriving DecidableEq

/-- Embeds the `email_analyze` tool handler (src/server/mcp_server.py,
lines 33-83): validate the id, fetch the email from the Gmail
repository, forward it to the analysis service, and shape the result;
every failure (including the handler's own `McpError` raises, which the
outer `except Exception` catches) surfaces as an `McpError` with code
`INTERNAL_ERROR`. -/
def email_analyze (env : ServerEnv) (email_id : Option String)
    (analysis_types : List String) :
    Except McpErr AnalyzeOutput × List ServerCall :=
  let inner : Except String AnalyzeOutput × List ServerCall :=
    match email_id with
    | none => (.error "email_id is required", [])
    | some eid =>
      if eid = "" then (.error "email_id is required", [])
      else
        match env.getEmail eid with
        | .error e => (.error e, [.gmailGetEmail eid])
        | .ok none =>
          (.error ("Email " ++ eid ++ " not found"), [.gmailGetEmail eid])
        | .ok (some email_data) =>
          match env.analyzeEmail email_data analysis_types with
          | .error e =>
            (.error e,
             [.gmailGetEmail eid, .analyzerAnalyze email_data.id analysis_types])
          | .ok analysis_result =>
            (.ok
              { email_id := eid
                subject := email_data.subject
                sentiment := if "sentiment" ∈ analysis_types then
                               some analysis_result.sentiment else none
                priority := if "priority" ∈ analysis_types then
                              some analysis_result.priority else none
                category := if "category" ∈ analysis_types then
                              some analysis_result.category else none
                summary := if "summary" ∈ analysis_types then
                             some analysis_result.summary else none
                confidence := analysis_result.confidence },
             [.gmailGetEmail eid, .analyzerAnalyze email_data.id analysis_types])
  match inner with
  | (.ok o, tr) => (.ok o, tr)
  | (.error e, tr) =>
    (.error ⟨.internalError, "Analysis failed: " ++ e⟩, tr)

/-- One result row of `email_classify` (src/server/mcp_server.py, lines
380-414). -/
structure ClassifyResult where
  email_id : String
  subject : Option String := none
  classification : Option String := none
  confidence : Option ℚ := none
  success : Bool
  error : Option String := none
deriving DecidableEq

/-- The `getattr(analysis, classification_type, None)` read
(src/server/mcp_server.py, line 397), over the string-valued fields of
the analysis record (a numeric classification type is not modelled). -/
def getattr_classification (a : ServerAnalysisResult) (ctype : String) :
    Option String :=
  if ctype = "sentiment" then some a.sentiment
  else if ctype = "priority" then some a.priority
  else if ctype = "category" then some a.category
  else if ctype = "summary" then some a.summary
  else none

/-- Per-id body of `EmailAnalyzerServer._classify_batch`
(src/server/mcp_server.py, lines 384-412): fetch the email, forward it
to the analyzer, and record success or the caught failure. -/
def classify_one (env : ServerEnv) (ctype : String) (email_id : String) :
    ClassifyResult × List ServerCall :=
  match env.getEmail email_id with
  | .error e =>
    ({ email_id := email_id, success := false, error := some e },
     [.gmailGetEmail email_id])
  | .ok none =>
    ({ email_id := email_id, success := false, error := some "Email not found" },
     [.gmailGetEmail email_id])
  | .ok (some email_data) =>
    match env.analyzeEmail email_data [ctype] with
    | .error e =>
      ({ email_id := email_id, success := false, error := some e },
       [.gmailGetEmail email_id, .analyzerAnalyze email_data.id [ctype]])
    | .ok analysis =>
      ({ email_id := email_id
         subject := some email_data.subject
         classification := getattr_classification analysis ctype
         confidence := some analysis.confidence
         success := true },
       [.gmailGetEmail email_id, .analyzerAnalyze email_data.id [ctype]])

/-- Embeds `EmailAnalyzerServer._classify_batch` over a list of ids, in
order.  The handler's chunking loop (`for i in range(0, len(email_ids),
batch_size)`) feeds the same ids, in the same order, a chunk at a time;
concatenating the chunk results equals processing the list directly, so
the embedding processes the list directly. -/
def classify_batch (env : ServerEnv) (ctype : String) :
    List String → List ClassifyResult × List ServerCall
  | [] => ([], [])
  | i :: rest =>
    let r := classify_one env ctype i
    let rs := classify_batch env ctype rest
    (r.1 :: rs.1, r.2 ++ rs.2)

/-- Embeds the `email_classify` tool handler (src/server/mcp_server.py,
lines 86-131): reject an empty id list and a list of more than 50 ids
before any repository or analyzer call; every failure (including the
handler's own `McpError` raises, caught by the outer `except Exception`)
surfaces as an `McpError` with code `INTERNAL_ERROR`.  `batch_size` only
controls the chunking and is retained for fidelity. -/
def email_classify (env : ServerEnv) (email_ids : List String)
    (classification_type : String) (_batch_size : Nat) :
    Except McpErr (List ClassifyResult) × List ServerCall :=
  let inner : Except String (List ClassifyResult) × List ServerCall :=
    if email_ids = [] then (.error "email_ids list is required", [])
    else if 50 < email_ids.length then
      (.error "Maximum 50 emails per batch", [])
    else
      let rs := classify_batch env classification_type email_ids
      (.ok rs.1, rs.2)
  match inner with
  | (.ok o, tr) => (.ok o, tr)
  | (.error e, tr) =>
    (.error ⟨.internalError, "Classification failed: " ++ e⟩, tr)

/-- One result row of `_execute_action` (src/server/mcp_server.py, lines
437-449). -/
structure ActionResult where
  email_id : String
  action : String
  success : Bool
  error : Option String := none
deriving DecidableEq

/-- Per-id body of `EmailAnalyzerServer._execute_action`
(src/server/mcp_server.py, lines 420-449): dispatch on the action name,
forward to the matching repository operation, and record success or the
caught failure.  A `label` action without `label_ids` raises
`ValueError`, caught by the per-id handler. -/
def execute_action_one (env : ServerEnv) (action : String)
    (label_ids : List String) (email_id : String) :
    ActionResult × List ServerCall :=
  if action = "read" then
    match env.markAsRead email_id with
    | .ok success =>
      ({ email_id := email_id, action := action, success := success },
       [.gmailMarkAsRead email_id])
    | .error e =>
      ({ email_id := email_id, action := action, success := false,
         error := some e }, [.gmailMarkAsRead email_id])
  else if action = "archive" then
    match env.archiveEmail email_id with
    | .ok success =>
      ({ email_id := email_id, action := action, success := success },
       [.gmailArchive email_id])
    | .error e =>
      ({ email_id := email_id, action := action, success := false,
         error := some e }, [.gmailArchive email_id])
  else if action = "delete" then
    match env.deleteEmail email_id with
    | .ok success =>
      ({ email_id := email_id, action := action, success := success },
       [.gmailDelete email_id])
    | .error e =>
      ({ email_id := email_id, action := action, success := false,
         error := some e }, [.gmailDelete email_id])
  else if action = "label" then
    if label_ids = [] then
      ({ email_id := email_id, action := action, success := false,
         error := some "label_ids required for label action" }, [])
    else
      match env.addLabels email_id label_ids with
      | .ok success =>
        ({ email_id := email_id, action := action, success := success },
         [.gmailAddLabels email_id label_ids])
      | .error e =>
        ({ email_id := email_id, action := action, success := false,
           error := some e }, [.gmailAddLabels email_id label_ids])
  else
    ({ email_id := email_id, action := action, success := false }, [])

/-- Embeds `EmailAnalyzerServer._execute_action` over the id list, in
order. -/
def execute_action (env : ServerEnv) (action : String)
    (label_ids : List String) :
    List String → List ActionResult × List ServerCall
  | [] => ([], [])
  | i :: rest =>
    let r := execute_action_one env action label_ids i
    let rs := execute_action env action label_ids rest
    (r.1 :: rs.1, r.2 ++ rs.2)

/-- Embeds the `email_action` tool handler (src/server/mcp_server.py,
lines 134-176): validate the id list and the action name, then forward
to `_execute_action`. -/
def email_action (env : ServerEnv) (email_ids : List String)
    (action : String) (label_ids : List String) :
    Except McpErr (List ActionResult) × List ServerCall :=
  let inner : Except String (List ActionResult) × List ServerCall :=
    if email_ids = [] then (.error "email_ids list is required", [])
    else if ¬ (action = "read" ∨ action = "archive" ∨ action = "delete" ∨
               action = "label") then
      (.error "action must be one of: read, archive, delete, label", [])
    else
      let rs := execute_action env action label_ids email_ids
      (.ok rs.1, rs.2)
  match inner with
  | (.ok o, tr) => (.ok o, tr)
  | (.error e, tr) =>
    (.error ⟨.internalError, "Action execution failed: " ++ e⟩, tr)

/-- One result row of the `email_search` handler
(src/server/mcp_server.py, lines 204-223): the shaped email record,
optionally with the forwarded analysis (category, priority,
confidence). -/
structure SearchResultEntry where
  email_id : String
  subject : String
  sender : String
  received_at : String
  is_read : Bool
  has_attachments : Bool
  analysis : Option (String × String × ℚ) := none
deriving DecidableEq

/-- Result-shaping loop of the `email_search` handler: build one entry
per found email, forwarding each to the analyzer when analysis is
requested; an analyzer failure propagates (to be wrapped by the outer
handler). -/
def search_build_results (env : ServerEnv) (incl : Bool) :
    List SearchResultEmail →
    Except String (List SearchResultEntry) × List ServerCall
  | [] => (.ok [], [])
  | e :: rest =>
    let base : SearchResultEntry :=
      { email_id := e.email_id, subject := e.subject, sender := e.sender,
        received_at := e.received_at, is_read := e.is_read,
        has_attachments := e.has_attachments }
    if incl then
      match env.analyzeSearchResult e ["category", "priority"] with
      | .error err =>
        (.error err, [.analyzerAnalyze e.email_id ["category", "priority"]])
      | .ok a =>
        let rs := search_build_results env incl rest
        (rs.1.map (fun l =>
          { base with analysis := some (a.category, a.priority, a.confidence) }
            :: l),
         .analyzerAnalyze e.email_id ["category", "priority"] :: rs.2)
    else
      let rs := search_build_results env incl rest
      (rs.1.map (fun l => base :: l), rs.2)

/-- Embeds the `email_search` tool handler (src/server/mcp_server.py,
lines 180-250): reject a limit above 100 before any repository call,
otherwise forward the query and filters to the repository's search and
shape the results; every failure surfaces as an `McpError` with code
`INTERNAL_ERROR`. -/
def email_search (env : ServerEnv) (query : String)
    (filters : SearchFiltersArg) (limit : Int) (include_analysis : Bool) :
    Except McpErr (List SearchResultEntry) × List ServerCall :=
  let inner : Except String (List SearchResultEntry) × List ServerCall :=
    if 100 < limit then (.error "Maximum limit is 100", [])
    else
      match env.searchEmails query filters limit with
      | .error e => (.error e, [.gmailSearch query])
      | .ok found =>
        let rs := search_build_results env include_analysis found
        (rs.1, .gmailSearch query :: rs.2)
  match inner with
  | (.ok o, tr) => (.ok o, tr)
  | (.error e, tr) =>
    (.error ⟨.internalError, "Search failed: " ++ e⟩, tr)

/-! ## Claim-side definitions for C3 -/

/-- The ordered optional-clause list of `_build_query`, before the
trailing `label:` clauses. -/
def buildQueryClauses (f : SearchFilters) : List (Option String) :=
  [clauseOfStr f.sender "from:",
   clauseOfStr f.recipient "to:",
   clauseOfStr f.subject "subject:",
   clauseOfStr f.body_contains "",
   clauseOfBool f.has_attachment "has:attachment" "-has:attachment",
   clauseOfBool f.is_unread "is:unread" "is:read",
   f.date_after.map (fun t => "after:" ++ strftime_ymd t),
   f.date_before.map (fun t => "before:" ++ strftime_ymd t)]

/-- Correspondence of claim C3 between the two filter records: same
sender, recipient, subject text, attachment setting, unread setting and
date bounds; the fields only one of the builders reads (the free-text
query of one, the body text and labels of the other) are at their unset
defaults. -/
def queryCorresponds (q : EmailQuery) (f : SearchFilters) : Prop :=
  q.from_sender = f.sender ∧
  q.to_recipient = f.recipient ∧
  q.subject_contains = f.subject ∧
  q.has_attachment = f.has_attachment ∧
  q.is_unread = f.is_unread ∧
  q.after_date = f.date_after.map strftime_ymd ∧
  q.before_date = f.date_before.map strftime_ymd ∧
  q.query_string = "" ∧ f.body_contains = none ∧ f.labels = []

/-- Concrete query record for the C3 witness. -/
def q0 : EmailQuery :=
  { from_sender := some "alice@example.com",
    to_recipient := some "bob@example.com",
    subject_contains := some "status report",
    has_attachment := some true,
    is_unread := some true,
    include_spam_trash := true }

/-- Concrete filter record for the C3 witness, corresponding to `q0`. -/
def f0 : SearchFilters :=
  { sender := some "alice@example.com",
    recipient := some "bob@example.com",
    subject := some "status report",
    has_attachment := some true,
    is_unread := some true }

/-! ## Shared concrete instances and small claim-side helpers -/

/-- Success test on an API outcome. -/
def apiOk {α : Type} : ApiOutcome α → Bool
  | .ok _ => true
  | .httpError _ => false
  | .exn _ => false

/-- The cache entries stored under one key (used to state that the other
keys' entries are untouched by an operation). -/
def entriesFor (k : String) (c : Cache) : Cache :=
  c.filter (fun e => e.1 == k)

/-- Concrete analysis record for witnesses. -/
def ar0 : ServerAnalysisResult :=
  { sentiment := "neutral", priority := "low", category := "general",
    confidence := 1/2, summary := "ok" }

/-- Concrete server environment for witnesses: every repository call
succeeds and the analyzer returns `ar0`. -/
def env0 : ServerEnv :=
  { getEmail := fun _ => .ok (some ed0),
    analyzeEmail := fun _ _ => .ok ar0,
    analyzeSearchResult := fun _ _ => .ok ar0,
    searchEmails := fun _ _ _ => .ok [],
    markAsRead := fun _ => .ok true,
    archiveEmail := fun _ => .ok true,
    deleteEmail := fun _ => .ok true,
    addLabels := fun _ _ => .ok true }

/-- Concrete search-result record for witnesses. -/
def se0 : SearchResultEmail :=
  { email_id := "m1", subject := "Hello", sender := "alice@example.com",
    received_at := "2024-01-01", is_read := false, has_attachments := true }

/-- Concrete server environment for the search witnesses: like `env0`,
but the repository search returns the single record `se0`. -/
def env1 : ServerEnv :=
  { env0 with searchEmails := fun _ _ _ => .ok [se0] }

/-! ## Helper lemmas -/

theorem appendStrPart_eq (parts : List String) (pre : String)
    (o : Option String) :
    appendStrPart parts pre o = parts ++ (clauseOfStr o pre).toList := by
  cases o with
  | none => simp [appendStrPart, clauseOfStr]
  | some s =>
    by_cases h : s = "" <;> simp [appendStrPart, clauseOfStr, h]

theorem appendBoolPart_eq (parts : List String) (o : Option Bool)
    (tstr fstr : String) :
    appendBoolPart parts o tstr fstr =
      parts ++ (clauseOfBool o tstr fstr).toList := by
  cases o <;> simp [appendBoolPart, clauseOfBool]

theorem filterMap_id_eq {α : Type} (l : List (Option α)) :
    l.filterMap id = (l.map Option.toList).flatten := by
  induction l with
  | nil => rfl
  | cons o t ih => cases o <;> simp [ih]

/-- The query builder produces exactly the space-join of the claim's
ordered clause list.  Shared bridge lemma used by the claims about the
query builders. -/
theorem build_gmail_query_eq_claimClauses (q : EmailQuery) :
    q.build_gmail_query = String.intercalate " " (claimClauses q) := by
  unfold EmailQuery.build_gmail_query claimClauses
  rw [filterMap_id_eq]
  simp only [appendStrPart_eq, appendBoolPart_eq]
  by_cases hq : q.query_string = "" <;>
    by_cases hs : q.include_spam_trash <;>
      simp [hq, hs, List.append_assoc]

theorem appendDatePart_eq (parts : List String) (pre : String)
    (o : Option PyDatetime) :
    appendDatePart parts pre o =
      parts ++ (o.map (fun t => pre ++ strftime_ymd t)).toList := by
  cases o <;> simp [appendDatePart]

/-- The search-filter query builder produces the space-join of its
ordered clause list followed by the `label:` clauses.  Shared bridge
lemma. -/
theorem build_query_eq_clauses (f : SearchFilters) :
    build_query f =
      String.intercalate " "
        ((buildQueryClauses f).filterMap id ++
          f.labels.map (fun l => "label:" ++ l)) := by
  unfold build_query buildQueryClauses
  rw [filterMap_id_eq]
  simp only [appendStrPart_eq, appendBoolPart_eq, appendDatePart_eq]
  simp [List.append_assoc]

/-! ## C1 -/

/-- C1: For every `EmailQuery`, `build_gmail_query` returns the
space-joined concatenation, in the fixed order free-text query, `from:`,
`to:`, `subject:`, `after:`, `before:`, attachment flag, unread flag, of
exactly one clause per field that is set, and appends the clause
`-in:spam -in:trash` if and only if `include_spam_trash` is false; in
particular the query for an all-default `EmailQuery` is exactly that
clause, not the empty string. -/
theorem build_gmail_query_matches_claim (q : EmailQuery) :
    q.build_gmail_query = String.intercalate " " (claimClauses q) ∧
    EmailQuery.build_gmail_query {} = "-in:spam -in:trash" :=
  ⟨build_gmail_query_eq_claimClauses q, by decide⟩

/-! ## C6 -/

/-- C6: Constructing a data-model record validates in the constructor and
raises `ValueError` exactly when validation fails: `EmailData` requires a
nonempty id and a nonempty sender; `AnalysisResult` requires a nonempty
email id, a sentiment among positive/negative/neutral, a priority among
high/medium/low, and a confidence between 0 and 1 inclusive;
`EmailAction` requires a recognized action type and a nonempty id list;
construction succeeds for exactly the argument tuples satisfying these
conditions. -/
theorem constructor_validation_iff :
    (∀ d : ModelsEmailData,
      exceptOk d.validate = true ↔ d.id ≠ "" ∧ d.sender ≠ "") ∧
    (∀ r : AnalysisResult,
      exceptOk r.validate = true ↔
        r.email_id ≠ "" ∧
        (r.sentiment = "positive" ∨ r.sentiment = "negative" ∨
         r.sentiment = "neutral") ∧
        (r.priority = "high" ∨ r.priority = "medium" ∨ r.priority = "low") ∧
        (0 ≤ r.confidence ∧ r.confidence ≤ 1)) ∧
    (∀ a : EmailAction,
      exceptOk a.validate = true ↔
        a.action_type ∈ valid_actions ∧ a.email_ids ≠ []) := by
  refine ⟨fun d => ?_, fun r => ?_, fun a => ?_⟩
  · unfold ModelsEmailData.validate
    split_ifs <;> simp_all [exceptOk]
  · unfold AnalysisResult.validate
    split_ifs <;> simp_all [exceptOk]
  · unfold EmailAction.validate
    split_ifs <;> simp_all [exceptOk]

/-! ## C3 -/

/-- C3 counterexample: the two query builders are not a single
transformation.  At the all-default records (which correspond: every
shared filter field is unset), `build_gmail_query` yields the string
`-in:spam -in:trash` while `_build_query` yields the empty string. -/
theorem query_builders_differ :
    ¬ (∀ (q : EmailQuery) (f : SearchFilters),
        queryCorresponds q f → q.build_gmail_query = build_query f) := by
  intro h
  have h0 := h {} {} ⟨rfl, rfl, rfl, rfl, rfl, rfl, rfl, rfl, rfl, rfl⟩
  revert h0
  decide

/-- C3 amended: the two builders agree exactly on the restricted filter
class where only sender, recipient, subject and the attachment flag are
in play: for corresponding records with `include_spam_trash` set (so no
spam/trash exclusion is appended), no date bounds, and the unread flag
not set to false (the builders spell the negative unread clause
differently: `-is:unread` versus `is:read`), the produced query strings
are equal.  On the remaining fields the builders differ, as the
counterexample shows. -/
theorem query_builders_agree_restricted (q : EmailQuery)
    (f : SearchFilters) (hc : queryCorresponds q f)
    (hspam : q.include_spam_trash = true)
    (hda : f.date_after = none) (hdb : f.date_before = none)
    (hunread : q.is_unread ≠ some false) :
    q.build_gmail_query = build_query f := by
  obtain ⟨h1, h2, h3, h4, h5, h6, h7, h8, h9, h10⟩ := hc
  rw [build_gmail_query_eq_claimClauses, build_query_eq_clauses]
  unfold claimClauses buildQueryClauses
  rw [filterMap_id_eq, filterMap_id_eq]
  rw [h1, h2, h3, h4, h5, h6, h7]
  rw [h5] at hunread
  cases hiu : f.is_unread with
  | none => simp [hspam, h8, h9, h10, hda, hdb, clauseOfStr, clauseOfBool,
                  List.append_assoc]
  | some b =>
    cases b with
    | true => simp [hspam, h8, h9, h10, hda, hdb, hiu, clauseOfStr,
                    clauseOfBool, List.append_assoc]
    | false => exact absurd hiu hunread

/-- C3 witness: the amended statement applied at a concrete
corresponding pair, where both builders produce the same nonempty
query string. -/
theorem query_builders_agree_witness :
    q0.build_gmail_query = build_query f0 :=
  query_builders_agree_restricted q0 f0
    ⟨rfl, rfl, rfl, rfl, rfl, rfl, rfl, rfl, rfl, rfl⟩ rfl rfl rfl
    (by decide)

/-! ## C2 lemmas -/

theorem joinAll_append (l1 l2 : List String) :
    joinAll (l1 ++ l2) = joinAll l1 ++ joinAll l2 := by
  induction l1 with
  | nil => simp [joinAll, String.empty_append]
  | cons s t ih => simp [joinAll, ih, String.append_assoc]

mutual
theorem extract_part_body_eq_spec (d : String → Option String) :
    (p : Part) →
    extract_part_body d p =
      joinAll ((partLeaves p).filterMap (leafBodyClause d))
  | .mk m fn dat sz aid hs ps => by
    cases ps with
    | some l =>
      simpa [extract_part_body, partLeaves] using
        extract_parts_body_eq_spec d l
    | none =>
      by_cases hm : (m = "text/plain" ∨ m = "text/html")
      · cases dat with
        | none =>
          simp [extract_part_body, partLeaves, leafBodyClause, hm,
                Part.mimeType, Part.bodyData, joinAll]
        | some sdata =>
          by_cases hs' : sdata = "" <;> cases hd : d sdata <;>
            simp [extract_part_body, partLeaves, leafBodyClause, hm, hs',
                  hd, Part.mimeType, Part.bodyData, joinAll,
                  String.append_empty]
      · simp [extract_part_body, partLeaves, leafBodyClause, hm,
              Part.mimeType, joinAll]

theorem extract_parts_body_eq_spec (d : String → Option String) :
    (l : List Part) →
    extract_parts_body d l =
      joinAll ((partLeavesList l).filterMap (leafBodyClause d))
  | [] => rfl
  | p :: ps => by
    simp [extract_parts_body, partLeavesList, List.filterMap_append,
          joinAll_append, extract_part_body_eq_spec d p,
          extract_parts_body_eq_spec d ps]
end

/-- The recursive body extraction computes the claim-side body: the
stripped concatenation over the leaf parts of the payload tree, in
document order. -/
theorem extract_body_eq_bodySpec (d : String → Option String)
    (msg : GmailMessage) : extract_body d msg = bodySpec d msg := by
  unfold extract_body bodySpec
  cases hp : msg.payload with
  | mk m fn dat sz aid hs ps =>
    cases ps with
    | some l =>
      simp [Part.parts, partLeaves, extract_parts_body_eq_spec]
    | none =>
      simp [Part.parts, partLeaves, extract_part_body_eq_spec]

mutual
theorem process_part_eq_spec :
    (p : Part) → process_part p = (partAll p).filterMap attachClause
  | .mk m fn dat sz aid hs ps => by
    cases hfn : fn with
    | none =>
      cases ps with
      | some l =>
        simpa [process_part, partAll, attachClause, Part.filename] using
          process_parts_eq_spec l
      | none =>
        simp [process_part, partAll, attachClause, Part.filename]
    | some s =>
      by_cases hs' : s = "" <;>
        cases ps with
        | some l =>
          simpa [process_part, partAll, attachClause, Part.filename,
                 Part.mimeType, Part.bodySize, Part.attachmentId, hs'] using
            process_parts_eq_spec l
        | none =>
          simp [process_part, partAll, attachClause, Part.filename,
                Part.mimeType, Part.bodySize, Part.attachmentId, hs']

theorem process_parts_eq_spec :
    (l : List Part) → process_parts l = (partAllList l).filterMap attachClause
  | [] => rfl
  | p :: ps => by
    simp [process_parts, partAllList, List.filterMap_append,
          process_part_eq_spec p, process_parts_eq_spec ps]
end

/-- The attachment extraction computes exactly the nested-parts
claim-side list: the parts strictly below the payload carrying a
nonempty filename, in document order. -/
theorem extract_attachments_eq_nested (msg : GmailMessage) :
    extract_attachments msg = attachSpecNested msg := by
  unfold extract_attachments attachSpecNested
  cases hp : msg.payload with
  | mk m fn dat sz aid hs ps =>
    cases ps with
    | some l => simp [Part.parts, process_parts_eq_spec]
    | none => simp [Part.parts]

/-! ## C2 -/

/-- C2 counterexample: claim C2 as stated is false.  On the message
`mc2`, whose top-level payload part carries the nonempty filename
`report.pdf`, the mapper returns an empty attachment list, while the
claimed list — the parts of the message carrying a nonempty filename, in
document order — contains that payload part (`_extract_attachments`
only ever scans the payload's nested parts and never the payload part
itself). -/
theorem mapper_claim_counterexample : ¬ mapperClaim d0 := by
  intro h
  have h2 := h mc2 ed0 rfl
  exact absurd h2.2.1 (by decide)

/-- C2 amended: for every decoder and every Gmail message, mapping fails
exactly when the message lacks an id, and a successfully mapped record
has: as body, the stripped concatenation, in document order over the
leaf parts of the payload tree of mime type text/plain or text/html, of
each part's decoded data followed by a newline (undecodable or absent
data contributing nothing); as attachments, exactly the parts strictly
below the top-level payload (root part excluded) carrying a nonempty
filename, in document order; and `is_read`, `is_starred`,
`is_important` true iff UNREAD is absent from, STARRED present in, and
IMPORTANT present in the message's labelIds. -/
theorem mapper_flattening_amended (d : String → Option String)
    (msg : GmailMessage) :
    match map_message_to_email_data d msg with
    | .ok ed =>
        ed.body = bodySpec d msg ∧
        ed.attachments = attachSpecNested msg ∧
        ed.is_read = ! msg.labelIds.contains "UNREAD" ∧
        ed.is_starred = msg.labelIds.contains "STARRED" ∧
        ed.is_important = msg.labelIds.contains "IMPORTANT"
    | .error _ => msg.id = none := by
  cases hid : msg.id with
  | none => simp [map_message_to_email_data, hid]
  | some mid =>
    simp [map_message_to_email_data, hid, extract_body_eq_bodySpec,
          extract_attachments_eq_nested]

/-! ## C4 -/

/-- C4: For every call to `get_email_by_id`, failures are only surfaced
as the wrapper's own exceptions: whenever the call returns an error, the
cache lookup missed, and the error is `EmailNotFoundError` for an HTTP
404, `RateLimitError` for an HTTP 429, and `EmailServiceError` for every
other HTTP status and for every unexpected exception (including a mapper
failure); no third-party exception escapes (the result type admits only
the wrapper's three exceptions). -/
theorem get_email_by_id_wraps_failures (d : String → Option String)
    (now ttl : Nat) (c : Cache) (email_id : String)
    (api : ApiOutcome GmailMessage) (e : ServiceError)
    (h : (get_email_by_id d now ttl c email_id api).1 = .error e) :
    cacheLookup now ttl email_id c = none ∧
    match api with
    | .ok m =>
        (∃ msg, map_message_to_email_data d m = .error msg) ∧
        e = ServiceError.serviceError
    | .httpError status =>
        e = (if status = 404 then ServiceError.emailNotFound
             else if status = 429 then ServiceError.rateLimit
             else ServiceError.serviceError)
    | .exn _ => e = ServiceError.serviceError := by
  cases hcl : cacheLookup now ttl email_id c with
  | some v => exact absurd h (by simp [get_email_by_id, hcl])
  | none =>
    refine ⟨rfl, ?_⟩
    cases api with
    | ok m =>
      cases hm : map_message_to_email_data d m with
      | ok ed => exact absurd h (by simp [get_email_by_id, hcl, hm])
      | error msg =>
        have h2 := h
        simp only [get_email_by_id, hcl, hm, Except.error.injEq] at h2
        show (∃ msg, map_message_to_email_data d m = .error msg) ∧
          e = ServiceError.serviceError
        exact ⟨⟨msg, hm⟩, h2.symm⟩
    | httpError status =>
      have h2 := h
      simp only [get_email_by_id, hcl, Except.error.injEq] at h2
      show e = (if status = 404 then ServiceError.emailNotFound
                else if status = 429 then ServiceError.rateLimit
                else ServiceError.serviceError)
      rw [← h2]
      rfl
    | exn m =>
      have h2 := h
      simp only [get_email_by_id, hcl, Except.error.injEq] at h2
      show e = ServiceError.serviceError
      exact h2.symm

/-- C4 witness: a concrete 404 on a cache miss surfaces as
`EmailNotFoundError`. -/
theorem get_email_by_id_wraps_failures_witness :
    cacheLookup 0 300 "x" [] = none ∧
    match (ApiOutcome.httpError 404 : ApiOutcome GmailMessage) with
    | .ok m =>
        (∃ msg, map_message_to_email_data d0 m = .error msg) ∧
        ServiceError.emailNotFound = ServiceError.serviceError
    | .httpError status =>
        ServiceError.emailNotFound =
          (if status = 404 then ServiceError.emailNotFound
           else if status = 429 then ServiceError.rateLimit
           else ServiceError.serviceError)
    | .exn _ => ServiceError.emailNotFound = ServiceError.serviceError :=
  get_email_by_id_wraps_failures d0 0 300 [] "x" (.httpError 404)
    .emailNotFound rfl

/-! ## C8 lemmas -/

theorem map_batch_messages_eq (d : String → Option String) :
    (msgs : List GmailMessage) →
    map_batch_messages d msgs =
      msgs.filterMap (fun m => (map_message_to_email_data d m).toOption)
  | [] => rfl
  | m :: ms => by
    cases hm : map_message_to_email_data d m <;>
      simp [map_batch_messages, hm, Except.toOption, map_batch_messages_eq d ms]

theorem fetch_outcomes_length (d : String → Option String) (now ttl : Nat) :
    (msgs : List (String × ApiOutcome GmailMessage)) → (c : Cache) →
    (fetch_outcomes d now ttl c msgs).length = msgs.length
  | [], _ => rfl
  | (mid, api) :: rest, c => by
    simp [fetch_outcomes, fetch_outcomes_length d now ttl rest]

theorem fetch_batch_eq_outcomes (d : String → Option String)
    (now ttl : Nat) :
    (msgs : List (String × ApiOutcome GmailMessage)) → (c : Cache) →
    (fetch_messages_batch d now ttl c msgs).1 =
      (fetch_outcomes d now ttl c msgs).reduceOption
  | [], _ => rfl
  | (mid, api) :: rest, c => by
    cases hr : (fetch_single_message d now ttl c mid api).1 <;>
      simp [fetch_messages_batch, fetch_outcomes, hr, List.reduceOption,
            fetch_batch_eq_outcomes d now ttl rest]

theorem mark_multiple_as_read_eq (now ttl : Nat)
    (api : String → ApiOutcome Unit) :
    (ids : List String) → (c : Cache) →
    (mark_multiple_as_read now ttl api c ids).1 =
      ids.filter (fun i => apiOk (api i))
  | [], _ => rfl
  | i :: rest, c => by
    cases hapi : api i <;>
      simp [mark_multiple_as_read, mark_as_read, hapi, apiOk,
            mark_multiple_as_read_eq now ttl api rest]

theorem mark_multiple_as_unread_eq (now ttl : Nat)
    (api : String → ApiOutcome Unit) :
    (ids : List String) → (c : Cache) →
    (mark_multiple_as_unread now ttl api c ids).1 =
      ids.filter (fun i => apiOk (api i))
  | [], _ => rfl
  | i :: rest, c => by
    cases hapi : api i <;>
      simp [mark_multiple_as_unread, mark_as_unread, hapi, apiOk,
            mark_multiple_as_unread_eq now ttl api rest]

theorem delete_multiple_emails_eq (now ttl : Nat)
    (api : String → ApiOutcome Unit) :
    (ids : List String) → (c : Cache) →
    (delete_multiple_emails now ttl api c ids).1 =
      ids.filter (fun i => apiOk (api i))
  | [], _ => rfl
  | i :: rest, c => by
    cases hapi : api i <;>
      simp [delete_multiple_emails, delete_email, hapi, apiOk,
            delete_multiple_emails_eq now ttl api rest]

/-! ## C8 -/

/-- C8: Batch operations are failure-tolerant and never raise (each is a
total function in the embedding): `map_batch_messages` returns exactly
the successfully mapped messages in input order; `_fetch_messages_batch`
returns exactly the per-element successes in input order (one outcome
per input element); and the three multiple-id helpers return exactly the
ids whose underlying single-email call succeeded, in input order,
silently omitting every failed element. -/
theorem batch_ops_failure_tolerant :
    (∀ (d : String → Option String) (msgs : List GmailMessage),
      map_batch_messages d msgs =
        msgs.filterMap (fun m => (map_message_to_email_data d m).toOption)) ∧
    (∀ (d : String → Option String) (now ttl : Nat) (c : Cache)
        (msgs : List (String × ApiOutcome GmailMessage)),
      (fetch_outcomes d now ttl c msgs).length = msgs.length ∧
      (fetch_messages_batch d now ttl c msgs).1 =
        (fetch_outcomes d now ttl c msgs).reduceOption) ∧
    (∀ (now ttl : Nat) (api : String → ApiOutcome Unit) (c : Cache)
        (ids : List String),
      (mark_multiple_as_read now ttl api c ids).1 =
        ids.filter (fun i => apiOk (api i)) ∧
      (mark_multiple_as_unread now ttl api c ids).1 =
        ids.filter (fun i => apiOk (api i)) ∧
      (delete_multiple_emails now ttl api c ids).1 =
        ids.filter (fun i => apiOk (api i))) :=
  ⟨fun d msgs => map_batch_messages_eq d msgs,
   fun d now ttl c msgs =>
     ⟨fetch_outcomes_length d now ttl msgs c,
      fetch_batch_eq_outcomes d now ttl msgs c⟩,
   fun now ttl api c ids =>
     ⟨mark_multiple_as_read_eq now ttl api ids c,
      mark_multiple_as_unread_eq now ttl api ids c,
      delete_multiple_emails_eq now ttl api ids c⟩⟩

/-! ## C9 -/

/-- C9: An `email_classify` request with more than 50 ids and an
`email_search` request with a limit above 100 are rejected with an
`McpError` (the handler's own `INVALID_PARAMS` raise, re-wrapped by its
catch-all as `INTERNAL_ERROR`), with no Gmail and no analysis call
performed (the forwarded-call trace is empty). -/
theorem oversize_requests_rejected :
    (∀ (env : ServerEnv) (ids : List String) (ctype : String) (bs : Nat),
      50 < ids.length →
      (email_classify env ids ctype bs).1 =
        .error ⟨.internalError,
                "Classification failed: Maximum 50 emails per batch"⟩ ∧
      (email_classify env ids ctype bs).2 = []) ∧
    (∀ (env : ServerEnv) (q : String) (f : SearchFiltersArg) (lim : Int)
        (incl : Bool),
      100 < lim →
      (email_search env q f lim incl).1 =
        .error ⟨.internalError, "Search failed: Maximum limit is 100"⟩ ∧
      (email_search env q f lim incl).2 = []) := by
  constructor
  · intro env ids ctype bs h
    have hne : ids ≠ [] := by
      intro hnil
      rw [hnil] at h
      simp at h
    simp [email_classify, hne, h]
  · intro env q f lim incl h
    simp [email_search, h]

/-- C9 witness: a 51-id classify request and a limit-101 search request,
both rejected with an empty forwarded-call trace. -/
theorem oversize_requests_rejected_witness :
    ((email_classify env0 (List.replicate 51 "x") "category" 10).1 =
        .error ⟨.internalError,
                "Classification failed: Maximum 50 emails per batch"⟩ ∧
      (email_classify env0 (List.replicate 51 "x") "category" 10).2 = []) ∧
    ((email_search env0 "" {} 101 false).1 =
        .error ⟨.internalError, "Search failed: Maximum limit is 100"⟩ ∧
      (email_search env0 "" {} 101 false).2 = []) :=
  ⟨oversize_requests_rejected.1 env0 (List.replicate 51 "x") "category" 10
     (by decide),
   oversize_requests_rejected.2 env0 "" {} 101 false (by decide)⟩

/-! ## C5 lemmas -/

theorem classify_batch_eq_map (env : ServerEnv) (ctype : String) :
    (ids : List String) →
    classify_batch env ctype ids =
      (ids.map (fun i => (classify_one env ctype i).1),
       (ids.map (fun i => (classify_one env ctype i).2)).flatten)
  | [] => rfl
  | i :: rest => by
    simp [classify_batch, classify_batch_eq_map env ctype rest]

theorem execute_action_eq_map (env : ServerEnv) (action : String)
    (lids : List String) :
    (ids : List String) →
    execute_action env action lids ids =
      (ids.map (fun i => (execute_action_one env action lids i).1),
       (ids.map (fun i => (execute_action_one env action lids i).2)).flatten)
  | [] => rfl
  | i :: rest => by
    simp [execute_action, execute_action_eq_map env action lids rest]

theorem search_build_results_no_analysis (env : ServerEnv) :
    (l : List SearchResultEmail) →
    search_build_results env false l =
      (.ok (l.map (fun e =>
        ({ email_id := e.email_id, subject := e.subject, sender := e.sender,
           received_at := e.received_at, is_read := e.is_read,
           has_attachments := e.has_attachments } : SearchResultEntry))),
       [])
  | [] => rfl
  | e :: rest => by
    simp [search_build_results, Except.map,
          search_build_results_no_analysis env rest]

theorem search_build_results_with_analysis (env : ServerEnv)
    (a : SearchResultEmail → ServerAnalysisResult) :
    (l : List SearchResultEmail) →
    (∀ e ∈ l, env.analyzeSearchResult e ["category", "priority"] = .ok (a e)) →
    search_build_results env true l =
      (.ok (l.map (fun e =>
        ({ email_id := e.email_id, subject := e.subject, sender := e.sender,
           received_at := e.received_at, is_read := e.is_read,
           has_attachments := e.has_attachments,
           analysis :=
             some ((a e).category, (a e).priority, (a e).confidence) }
          : SearchResultEntry))),
       l.map (fun e =>
         ServerCall.analyzerAnalyze e.email_id ["category", "priority"]))
  | [], _ => rfl
  | e :: rest, h => by
    have he := h e (by simp)
    have hrest := search_build_results_with_analysis env a rest
      (fun e2 he2 => h e2 (List.mem_cons_of_mem _ he2))
    simp [search_build_results, Except.map, he, hrest]

/-! ## C5 -/

/-- C5: The tool-registration layer declares exactly the four tools
email_analyze, email_classify, email_action and email_search; the batch
classification and the action executor forward each id, in order, to the
Gmail repository (and the classifier on to the analyzer), returning the
per-id forwarded results; a successful `email_analyze` forwards to the
repository fetch and then the analysis service, returning the requested
analysis fields of the forwarded analysis result as the tool result; and
a successful `email_search` forwards the query to the repository search
and returns the shaped search results — each forwarded on to the
analysis service exactly when analysis is requested. -/
theorem tool_layer_forwards :
    registered_tools.map ToolDecl.name =
      ["email_analyze", "email_classify", "email_action", "email_search"] ∧
    (∀ (env : ServerEnv) (ctype : String) (ids : List String),
      classify_batch env ctype ids =
        (ids.map (fun i => (classify_one env ctype i).1),
         (ids.map (fun i => (classify_one env ctype i).2)).flatten)) ∧
    (∀ (env : ServerEnv) (action : String) (lids : List String)
        (ids : List String),
      execute_action env action lids ids =
        (ids.map (fun i => (execute_action_one env action lids i).1),
         (ids.map (fun i => (execute_action_one env action lids i).2)).flatten)) ∧
    (∀ (env : ServerEnv) (eid : String) (atypes : List String)
        (ed : EmailData) (a : ServerAnalysisResult),
      eid ≠ "" → env.getEmail eid = .ok (some ed) →
      env.analyzeEmail ed atypes = .ok a →
      email_analyze env (some eid) atypes =
        (.ok { email_id := eid, subject := ed.subject,
               sentiment :=
                 if "sentiment" ∈ atypes then some a.sentiment else none,
               priority :=
                 if "priority" ∈ atypes then some a.priority else none,
               category :=
                 if "category" ∈ atypes then some a.category else none,
               summary :=
                 if "summary" ∈ atypes then some a.summary else none,
               confidence := a.confidence },
         [.gmailGetEmail eid, .analyzerAnalyze ed.id atypes])) ∧
    (∀ (env : ServerEnv) (q : String) (f : SearchFiltersArg) (lim : Int)
        (found : List SearchResultEmail),
      ¬ 100 < lim → env.searchEmails q f lim = .ok found →
      email_search env q f lim false =
        (.ok (found.map (fun e =>
          ({ email_id := e.email_id, subject := e.subject,
             sender := e.sender, received_at := e.received_at,
             is_read := e.is_read,
             has_attachments := e.has_attachments } : SearchResultEntry))),
         [.gmailSearch q])) ∧
    (∀ (env : ServerEnv) (q : String) (f : SearchFiltersArg) (lim : Int)
        (found : List SearchResultEmail)
        (a : SearchResultEmail → ServerAnalysisResult),
      ¬ 100 < lim → env.searchEmails q f lim = .ok found →
      (∀ e ∈ found,
        env.analyzeSearchResult e ["category", "priority"] = .ok (a e)) →
      email_search env q f lim true =
        (.ok (found.map (fun e =>
          ({ email_id := e.email_id, subject := e.subject,
             sender := e.sender, received_at := e.received_at,
             is_read := e.is_read, has_attachments := e.has_attachments,
             analysis :=
               some ((a e).category, (a e).priority, (a e).confidence) }
            : SearchResultEntry))),
         .gmailSearch q :: found.map (fun e =>
           ServerCall.analyzerAnalyze e.email_id ["category", "priority"]))) := by
  refine ⟨rfl, fun env ctype ids => classify_batch_eq_map env ctype ids,
          fun env action lids ids => execute_action_eq_map env action lids ids,
          fun env eid atypes ed a hne hget hana => ?_,
          fun env q f lim found hlim hsearch => ?_,
          fun env q f lim found a hlim hsearch hana => ?_⟩
  · simp [email_analyze, hne, hget, hana]
  · simp [email_search, hlim, hsearch, search_build_results_no_analysis]
  · simp [email_search, hlim, hsearch,
          search_build_results_with_analysis env a found hana]

/-- C5 witness: concrete `email_analyze` and `email_search` calls
against the concrete environments, forwarding to the repository fetch /
search and to the analyzer, and returning the forwarded results. -/
theorem tool_layer_forwards_witness :
    email_analyze env0 (some "m1") ["sentiment"] =
      (.ok { email_id := "m1", subject := "No Subject",
             sentiment := some "neutral", priority := none,
             category := none, summary := none, confidence := 1/2 },
       [.gmailGetEmail "m1", .analyzerAnalyze "m1" ["sentiment"]]) ∧
    email_search env1 "from:alice" {} 20 false =
      (.ok [{ email_id := "m1", subject := "Hello",
              sender := "alice@example.com", received_at := "2024-01-01",
              is_read := false, has_attachments := true }],
       [.gmailSearch "from:alice"]) ∧
    email_search env1 "from:alice" {} 20 true =
      (.ok [{ email_id := "m1", subject := "Hello",
              sender := "alice@example.com", received_at := "2024-01-01",
              is_read := false, has_attachments := true,
              analysis := some ("general", "low", 1/2) }],
       [.gmailSearch "from:alice",
        .analyzerAnalyze "m1" ["category", "priority"]]) := by
  refine ⟨?_, ?_, ?_⟩
  · have h := tool_layer_forwards.2.2.2.1 env0 "m1" ["sentiment"] ed0 ar0
      (by decide) rfl rfl
    simpa [ed0, ar0] using h
  · have h := tool_layer_forwards.2.2.2.2.1 env1 "from:alice" {} 20 [se0]
      (by decide) rfl
    simpa [se0] using h
  · have h := tool_layer_forwards.2.2.2.2.2 env1 "from:alice" {} 20 [se0]
      (fun _ => ar0) (by decide) rfl (fun e he => rfl)
    simpa [se0, ar0] using h

/-! ## C7 lemmas -/

theorem cacheInsert_length_le (now ttl : Nat) (k : String) (v : EmailData)
    (c : Cache) : (cacheInsert now ttl k v c).length ≤ 1000 := by
  unfold cacheInsert
  set c1 := cacheRemoveKey k (cacheExpire now ttl c) with hc1
  by_cases h : 1000 ≤ c1.length <;>
    simp [h, List.length_append, List.length_drop] <;> omega

theorem cacheUpdate_length (k : String) (f : EmailData → EmailData) :
    (c : Cache) → (cacheUpdate k f c).length = c.length
  | [] => rfl
  | (k', v', t') :: rest => by
    by_cases hk : k' = k <;>
      simp [cacheUpdate, hk, cacheUpdate_length k f rest]

theorem cacheRemoveKey_length_le (k : String) :
    (c : Cache) → (cacheRemoveKey k c).length ≤ c.length
  | [] => Nat.le_refl 0
  | (k', v', t') :: rest => by
    by_cases hk : k' = k <;>
      simp [cacheRemoveKey, hk]
    · exact Nat.le_succ_of_le (cacheRemoveKey_length_le k rest)
    · exact cacheRemoveKey_length_le k rest

theorem fetch_single_length_le (d : String → Option String) (now ttl : Nat)
    (c : Cache) (mid : String) (api : ApiOutcome GmailMessage)
    (h : c.length ≤ 1000) :
    (fetch_single_message d now ttl c mid api).2.length ≤ 1000 := by
  cases hl : cacheLookup now ttl mid c with
  | some v => simp only [fetch_single_message, hl]; exact h
  | none =>
    cases api with
    | ok message =>
      cases hm : map_message_to_email_data d message with
      | ok email_data =>
        simp only [fetch_single_message, hl, hm]
        exact cacheInsert_length_le now ttl mid email_data c
      | error _ => simp only [fetch_single_message, hl, hm]; exact h
    | httpError _ => simp only [fetch_single_message, hl]; exact h
    | exn _ => simp only [fetch_single_message, hl]; exact h

theorem fetch_batch_length_le (d : String → Option String) (now ttl : Nat) :
    (msgs : List (String × ApiOutcome GmailMessage)) → (c : Cache) →
    c.length ≤ 1000 →
    (fetch_messages_batch d now ttl c msgs).2.length ≤ 1000
  | [], _, h => h
  | (mid, api) :: rest, c, h =>
    fetch_batch_length_le d now ttl rest
      (fetch_single_message d now ttl c mid api).2
      (fetch_single_length_le d now ttl c mid api h)

theorem repoStep_length_le (d : String → Option String) (ttl : Nat)
    (c : Cache) (op : RepoOp) (h : c.length ≤ 1000) :
    (repoStep d ttl c op).length ≤ 1000 := by
  cases op with
  | getById now email_id api =>
    show (get_email_by_id d now ttl c email_id api).2.length ≤ 1000
    cases hl : cacheLookup now ttl email_id c with
    | some v => simp only [get_email_by_id, hl]; exact h
    | none =>
      cases api with
      | ok message =>
        cases hm : map_message_to_email_data d message with
        | ok email_data =>
          simp only [get_email_by_id, hl, hm]
          exact cacheInsert_length_le now ttl email_id email_data c
        | error _ => simp only [get_email_by_id, hl, hm]; exact h
      | httpError _ => simp only [get_email_by_id, hl]; exact h
      | exn _ => simp only [get_email_by_id, hl]; exact h
  | fetchBatch now msgs => exact fetch_batch_length_le d now ttl msgs c h
  | markRead now email_id api =>
    show (mark_as_read now ttl c email_id api).2.length ≤ 1000
    cases api with
    | ok _ =>
      by_cases hc : cacheContains now ttl email_id c = true <;>
        simp [mark_as_read, hc, cacheUpdate_length, h]
    | httpError _ => exact h
    | exn _ => exact h
  | markUnread now email_id api =>
    show (mark_as_unread now ttl c email_id api).2.length ≤ 1000
    cases api with
    | ok _ =>
      by_cases hc : cacheContains now ttl email_id c = true <;>
        simp [mark_as_unread, hc, cacheUpdate_length, h]
    | httpError _ => exact h
    | exn _ => exact h
  | deleteOp now email_id api =>
    show (delete_email now ttl c email_id api).2.length ≤ 1000
    cases api with
    | ok _ =>
      by_cases hc : cacheContains now ttl email_id c = true <;>
        simp [delete_email, cachePop, hc]
      · exact le_trans (cacheRemoveKey_length_le email_id c) h
      · exact h
    | httpError _ => exact h
    | exn _ => exact h

theorem foldl_repoStep_length_le (d : String → Option String) (ttl : Nat) :
    (ops : List RepoOp) → (c : Cache) → c.length ≤ 1000 →
    (ops.foldl (repoStep d ttl) c).length ≤ 1000
  | [], _, h => h
  | op :: rest, c, h =>
    foldl_repoStep_length_le d ttl rest (repoStep d ttl c op)
      (repoStep_length_le d ttl c op h)

theorem cacheLookup_fresh (now ttl : Nat) (k : String) :
    (c : Cache) → (v : EmailData) → cacheLookup now ttl k c = some v →
    ∃ t, (k, v, t) ∈ c ∧ now < t + ttl
  | [], v, h => by simp [cacheLookup] at h
  | (k', v', t') :: rest, v, h => by
    by_cases hk : k' = k
    · rw [cacheLookup, if_pos hk] at h
      by_cases ht : now < t' + ttl
      · rw [if_pos ht] at h
        obtain rfl : v' = v := by injection h
        exact ⟨t', by simp [hk], ht⟩
      · rw [if_neg ht] at h
        exact absurd h (by simp)
    · rw [cacheLookup, if_neg hk] at h
      obtain ⟨t, hmem, hlt⟩ := cacheLookup_fresh now ttl k rest v h
      exact ⟨t, List.mem_cons_of_mem _ hmem, hlt⟩

theorem cacheLookup_append_no_key (now ttl : Nat) (k : String) :
    (l1 l2 : Cache) → (∀ e ∈ l1, e.1 ≠ k) →
    cacheLookup now ttl k (l1 ++ l2) = cacheLookup now ttl k l2
  | [], l2, _ => rfl
  | e :: t, l2, h => by
    obtain ⟨k', v', t'⟩ := e
    have hne : k' ≠ k := h (k', v', t') (by simp)
    rw [List.cons_append, cacheLookup, if_neg hne]
    exact cacheLookup_append_no_key now ttl k t l2
      (fun e he => h e (List.mem_cons_of_mem _ he))

theorem cacheRemoveKey_no_key (k : String) (c : Cache) :
    ∀ e ∈ cacheRemoveKey k c, e.1 ≠ k := by
  induction c with
  | nil => simp [cacheRemoveKey]
  | cons e rest ih =>
    obtain ⟨k', v', t'⟩ := e
    by_cases hk : k' = k
    · simpa [cacheRemoveKey, hk] using ih
    · intro e2 he2
      rw [cacheRemoveKey, if_neg hk] at he2
      rcases List.mem_cons.mp he2 with h1 | h2
      · subst h1; exact hk
      · exact ih e2 h2

theorem cacheInsert_lookup_self (now ttl : Nat) (k : String)
    (v : EmailData) (c : Cache) (h : 0 < ttl) :
    cacheLookup now ttl k (cacheInsert now ttl k v c) = some v := by
  unfold cacheInsert
  have h1 : ∀ e ∈ cacheRemoveKey k (cacheExpire now ttl c), e.1 ≠ k :=
    cacheRemoveKey_no_key k (cacheExpire now ttl c)
  have h2 : ∀ e ∈ (if 1000 ≤ (cacheRemoveKey k (cacheExpire now ttl c)).length
      then (cacheRemoveKey k (cacheExpire now ttl c)).drop
        ((cacheRemoveKey k (cacheExpire now ttl c)).length + 1 - 1000)
      else cacheRemoveKey k (cacheExpire now ttl c)), e.1 ≠ k := by
    intro e he
    split at he
    · exact h1 e (List.drop_subset _ _ he)
    · exact h1 e he
  rw [cacheLookup_append_no_key now ttl k _ _ h2]
  rw [cacheLookup, if_pos rfl, if_pos (by omega)]

theorem get_email_by_id_caches (d : String → Option String)
    (now ttl : Nat) (c : Cache) (email_id : String) (msg : GmailMessage)
    (ed : EmailData) (httl : 0 < ttl)
    (hmiss : cacheLookup now ttl email_id c = none)
    (hmap : map_message_to_email_data d msg = .ok ed) :
    get_email_by_id d now ttl c email_id (.ok msg) =
      (.ok ed, cacheInsert now ttl email_id ed c) ∧
    cacheLookup now ttl email_id
      (get_email_by_id d now ttl c email_id (.ok msg)).2 = some ed := by
  have h1 : get_email_by_id d now ttl c email_id (.ok msg) =
      (.ok ed, cacheInsert now ttl email_id ed c) := by
    simp [get_email_by_id, hmiss, hmap]
  exact ⟨h1, by rw [h1]; exact cacheInsert_lookup_self now ttl email_id ed c httl⟩

theorem fetch_single_caches (d : String → Option String) (now ttl : Nat)
    (c : Cache) (mid : String) (msg : GmailMessage) (ed : EmailData)
    (httl : 0 < ttl) (hmiss : cacheLookup now ttl mid c = none)
    (hmap : map_message_to_email_data d msg = .ok ed) :
    fetch_single_message d now ttl c mid (.ok msg) =
      (some ed, cacheInsert now ttl mid ed c) ∧
    cacheLookup now ttl mid
      (fetch_single_message d now ttl c mid (.ok msg)).2 = some ed := by
  have h1 : fetch_single_message d now ttl c mid (.ok msg) =
      (some ed, cacheInsert now ttl mid ed c) := by
    simp [fetch_single_message, hmiss, hmap]
  exact ⟨h1, by rw [h1]; exact cacheInsert_lookup_self now ttl mid ed c httl⟩

/-! ## C7 -/

/-- C7: The email cache is fixed-size and time-bounded, and every
successful single-email fetch caches its mapped result: across every
sequence of repository operations starting from a fresh repository the
cache never holds more than 1000 entries; a lookup never returns an
entry more than `cache_ttl` seconds after its insertion; and a
cache-missing `get_email_by_id` or batch-fetch element whose API call
and mapping succeed returns the mapped record and stores it in the cache
under the email's id (where it is then found). -/
theorem cache_bounded_and_fresh :
    (∀ (d : String → Option String) (ttl : Nat) (ops : List RepoOp),
      (runRepoOps d ttl ops).length ≤ 1000) ∧
    (∀ (now ttl : Nat) (k : String) (c : Cache) (v : EmailData),
      cacheLookup now ttl k c = some v →
      ∃ t, (k, v, t) ∈ c ∧ now < t + ttl) ∧
    (∀ (d : String → Option String) (now ttl : Nat) (c : Cache)
        (email_id : String) (msg : GmailMessage) (ed : EmailData),
      0 < ttl → cacheLookup now ttl email_id c = none →
      map_message_to_email_data d msg = .ok ed →
      get_email_by_id d now ttl c email_id (.ok msg) =
        (.ok ed, cacheInsert now ttl email_id ed c) ∧
      cacheLookup now ttl email_id
        (get_email_by_id d now ttl c email_id (.ok msg)).2 = some ed) ∧
    (∀ (d : String → Option String) (now ttl : Nat) (c : Cache)
        (mid : String) (msg : GmailMessage) (ed : EmailData),
      0 < ttl → cacheLookup now ttl mid c = none →
      map_message_to_email_data d msg = .ok ed →
      fetch_single_message d now ttl c mid (.ok msg) =
        (some ed, cacheInsert now ttl mid ed c) ∧
      cacheLookup now ttl mid
        (fetch_single_message d now ttl c mid (.ok msg)).2 = some ed) :=
  ⟨fun d ttl ops => foldl_repoStep_length_le d ttl ops [] (by simp),
   fun now ttl k c v h => cacheLookup_fresh now ttl k c v h,
   fun d now ttl c email_id msg ed httl hmiss hmap =>
     get_email_by_id_caches d now ttl c email_id msg ed httl hmiss hmap,
   fun d now ttl c mid msg ed httl hmiss hmap =>
     fetch_single_caches d now ttl c mid msg ed httl hmiss hmap⟩

/-- C7 witness: the invariants instantiated on a concrete operation
sequence, a concrete one-entry cache, and a concrete cache-missing fetch
of the message `mc2`. -/
theorem cache_bounded_and_fresh_witness :
    (runRepoOps d0 300 [RepoOp.getById 0 "m1" (.ok mc2)]).length ≤ 1000 ∧
    (∃ t, (("m1", ed0, t) : CacheEntry) ∈ ([("m1", ed0, 0)] : Cache) ∧
      0 < t + 300) ∧
    (get_email_by_id d0 0 300 [] "m1" (.ok mc2) =
        (.ok ed0, cacheInsert 0 300 "m1" ed0 []) ∧
      cacheLookup 0 300 "m1"
        (get_email_by_id d0 0 300 [] "m1" (.ok mc2)).2 = some ed0) ∧
    (fetch_single_message d0 0 300 [] "m1" (.ok mc2) =
        (some ed0, cacheInsert 0 300 "m1" ed0 []) ∧
      cacheLookup 0 300 "m1"
        (fetch_single_message d0 0 300 [] "m1" (.ok mc2)).2 = some ed0) :=
  ⟨cache_bounded_and_fresh.1 d0 300 [RepoOp.getById 0 "m1" (.ok mc2)],
   cache_bounded_and_fresh.2.1 0 300 "m1" [("m1", ed0, 0)] ed0 rfl,
   cache_bounded_and_fresh.2.2.1 d0 0 300 [] "m1" mc2 ed0 (by decide)
     rfl rfl,
   cache_bounded_and_fresh.2.2.2 d0 0 300 [] "m1" mc2 ed0 (by decide)
     rfl rfl⟩

/-! ## C10 lemmas -/

theorem cacheLookup_update_self (now ttl : Nat) (k : String)
    (f : EmailData → EmailData) :
    (c : Cache) →
    cacheLookup now ttl k (cacheUpdate k f c) =
      (cacheLookup now ttl k c).map f
  | [] => rfl
  | (k', v', t') :: rest => by
    by_cases hk : k' = k
    · simp only [cacheUpdate, if_pos hk, cacheLookup, hk, if_pos rfl]
      by_cases ht : now < t' + ttl <;> simp [ht]
    · simp only [cacheUpdate, if_neg hk, cacheLookup, if_neg hk]
      exact cacheLookup_update_self now ttl k f rest

theorem entriesFor_update_ne (k eid : String)
    (f : EmailData → EmailData) (hne : k ≠ eid) :
    (c : Cache) → entriesFor k (cacheUpdate eid f c) = entriesFor k c
  | [] => rfl
  | (k', v', t') :: rest => by
    by_cases hk : k' = eid
    · have hbk : (eid == k) = false := by
        simp only [beq_eq_false_iff_ne, ne_eq]
        exact Ne.symm hne
      simp [cacheUpdate, entriesFor, hk, hbk]
      exact entriesFor_update_ne k eid f hne rest
    · by_cases hk2 : k' = k <;>
        simp [cacheUpdate, entriesFor, hk, hk2, hne] <;>
        exact entriesFor_update_ne k eid f hne rest

theorem cacheLookup_removeKey_self (now ttl : Nat) (k : String) :
    (c : Cache) → cacheLookup now ttl k (cacheRemoveKey k c) = none
  | [] => rfl
  | (k', v', t') :: rest => by
    by_cases hk : k' = k
    · simp [cacheRemoveKey, hk, cacheLookup_removeKey_self now ttl k rest]
    · simp only [cacheRemoveKey, if_neg hk, cacheLookup, if_neg hk]
      exact cacheLookup_removeKey_self now ttl k rest

theorem entriesFor_removeKey_ne (k eid : String) (hne : k ≠ eid) :
    (c : Cache) → entriesFor k (cacheRemoveKey eid c) = entriesFor k c
  | [] => rfl
  | (k', v', t') :: rest => by
    by_cases hk : k' = eid
    · have hbk : (eid == k) = false := by
        simp only [beq_eq_false_iff_ne, ne_eq]
        exact Ne.symm hne
      simp [cacheRemoveKey, entriesFor, hk, hbk]
      exact entriesFor_removeKey_ne k eid hne rest
    · by_cases hk2 : k' = k <;>
        simp [cacheRemoveKey, entriesFor, hk, hk2, hne] <;>
        exact entriesFor_removeKey_ne k eid hne rest

/-! ## C10 -/

/-- C10: After a successful `mark_as_read` (respectively
`mark_as_unread`), a live cached record for the id becomes the same
record with `is_read` set to true (respectively false) — all other
fields unchanged; a successful `delete_email` removes the id from the
cache; and the cache entries of every other id are untouched by all
three operations. -/
theorem mark_and_delete_cache_effects :
    (∀ (now ttl : Nat) (c : Cache) (eid : String) (v : EmailData),
      cacheLookup now ttl eid c = some v →
      cacheLookup now ttl eid (mark_as_read now ttl c eid (.ok ())).2 =
        some { v with is_read := true }) ∧
    (∀ (now ttl : Nat) (c : Cache) (eid : String) (v : EmailData),
      cacheLookup now ttl eid c = some v →
      cacheLookup now ttl eid (mark_as_unread now ttl c eid (.ok ())).2 =
        some { v with is_read := false }) ∧
    (∀ (now ttl : Nat) (c : Cache) (eid : String),
      cacheLookup now ttl eid (delete_email now ttl c eid (.ok ())).2 =
        none) ∧
    (∀ (now ttl : Nat) (c : Cache) (eid k : String), k ≠ eid →
      entriesFor k (mark_as_read now ttl c eid (.ok ())).2 =
        entriesFor k c ∧
      entriesFor k (mark_as_unread now ttl c eid (.ok ())).2 =
        entriesFor k c ∧
      entriesFor k (delete_email now ttl c eid (.ok ())).2 =
        entriesFor k c) := by
  refine ⟨fun now ttl c eid v h => ?_, fun now ttl c eid v h => ?_,
          fun now ttl c eid => ?_, fun now ttl c eid k hne => ?_⟩
  · have hc : cacheContains now ttl eid c = true := by
      simp [cacheContains, h]
    simp [mark_as_read, hc, cacheLookup_update_self, h]
  · have hc : cacheContains now ttl eid c = true := by
      simp [cacheContains, h]
    simp [mark_as_unread, hc, cacheLookup_update_self, h]
  · show cacheLookup now ttl eid (cachePop now ttl eid c) = none
    unfold cachePop
    by_cases hc : cacheContains now ttl eid c = true
    · simp [hc, cacheLookup_removeKey_self]
    · have hl : cacheLookup now ttl eid c = none := by
        rcases hcl : cacheLookup now ttl eid c with _ | v
        · rfl
        · exact absurd (by simp [cacheContains, hcl]) hc
      rw [if_neg hc]
      exact hl
  · refine ⟨?_, ?_, ?_⟩
    · show entriesFor k
        (if cacheContains now ttl eid c = true
         then cacheUpdate eid (fun v => { v with is_read := true }) c
         else c) = entriesFor k c
      split
      · exact entriesFor_update_ne k eid _ hne c
      · rfl
    · show entriesFor k
        (if cacheContains now ttl eid c = true
         then cacheUpdate eid (fun v => { v with is_read := false }) c
         else c) = entriesFor k c
      split
      · exact entriesFor_update_ne k eid _ hne c
      · rfl
    · show entriesFor k (cachePop now ttl eid c) = entriesFor k c
      unfold cachePop
      split
      · exact entriesFor_removeKey_ne k eid hne c
      · rfl

/-- C10 witness: the three effects instantiated on a concrete two-entry
cache. -/
theorem mark_and_delete_cache_effects_witness :
    (cacheLookup 0 300 "a"
        (mark_as_read 0 300 [("a", ed0, 0), ("b", ed0, 5)] "a" (.ok ())).2 =
      some { ed0 with is_read := true }) ∧
    (cacheLookup 0 300 "a"
        (mark_as_unread 0 300 [("a", ed0, 0), ("b", ed0, 5)] "a" (.ok ())).2 =
      some { ed0 with is_read := false }) ∧
    (cacheLookup 0 300 "a"
        (delete_email 0 300 [("a", ed0, 0), ("b", ed0, 5)] "a" (.ok ())).2 =
      none) ∧
    (entriesFor "b"
        (mark_as_read 0 300 [("a", ed0, 0), ("b", ed0, 5)] "a" (.ok ())).2 =
        entriesFor "b" [("a", ed0, 0), ("b", ed0, 5)] ∧
      entriesFor "b"
        (mark_as_unread 0 300 [("a", ed0, 0), ("b", ed0, 5)] "a" (.ok ())).2 =
        entriesFor "b" [("a", ed0, 0), ("b", ed0, 5)] ∧
      entriesFor "b"
        (delete_email 0 300 [("a", ed0, 0), ("b", ed0, 5)] "a" (.ok ())).2 =
        entriesFor "b" [("a", ed0, 0), ("b", ed0, 5)]) :=
  ⟨mark_and_delete_cache_effects.1 0 300 [("a", ed0, 0), ("b", ed0, 5)]
     "a" ed0 rfl,
   mark_and_delete_cache_effects.2.1 0 300 [("a", ed0, 0), ("b", ed0, 5)]
     "a" ed0 rfl,
   mark_and_delete_cache_effects.2.2.1 0 300
     [("a", ed0, 0), ("b", ed0, 5)] "a",
   mark_and_delete_cache_effects.2.2.2 0 300
     [("a", ed0, 0), ("b", ed0, 5)] "a" "b" (by decide)⟩

end MCPEmailAnalyzer
